import Mathlib

/-!
Verification of the INGInious problem/answer-checking model
(`inginious/common/tasks_problems.py`).

The Python code is dynamically typed, so submitted inputs and descriptor
fields are embedded as a `PyVal` type of dynamic values; operations that can
raise a Python exception return `Except PyErr _`.
-/

set_option autoImplicit false
set_option linter.unusedVariables false

namespace INGInious

/-- Dynamic Python values, restricted to the types the problem model actually
receives: `None`, booleans, integers, strings, lists and string-keyed dicts. -/
inductive PyVal where
  | none
  | bool (b : Bool)
  | int (n : Int)
  | str (s : String)
  | list (elems : List PyVal)
  | dict (entries : List (String × PyVal))
  deriving Repr

/-- A string-keyed Python dict (keys are unique; first binding wins on lookup). -/
abbrev PyDict := List (String × PyVal)

mutual
/-- Decidable structural equality for `PyVal` (the deriving handler does not
support this nested inductive). -/
def PyVal.decEq : (a b : PyVal) → Decidable (a = b)
  | .none, .none => .isTrue rfl
  | .none, .bool _ => .isFalse (fun h => nomatch h)
  | .none, .int _ => .isFalse (fun h => nomatch h)
  | .none, .str _ => .isFalse (fun h => nomatch h)
  | .none, .list _ => .isFalse (fun h => nomatch h)
  | .none, .dict _ => .isFalse (fun h => nomatch h)
  | .bool _, .none => .isFalse (fun h => nomatch h)
  | .bool a, .bool b => decidable_of_iff (a = b) ⟨fun h => h ▸ rfl, PyVal.bool.inj⟩
  | .bool _, .int _ => .isFalse (fun h => nomatch h)
  | .bool _, .str _ => .isFalse (fun h => nomatch h)
  | .bool _, .list _ => .isFalse (fun h => nomatch h)
  | .bool _, .dict _ => .isFalse (fun h => nomatch h)
  | .int _, .none => .isFalse (fun h => nomatch h)
  | .int _, .bool _ => .isFalse (fun h => nomatch h)
  | .int a, .int b => decidable_of_iff (a = b) ⟨fun h => h ▸ rfl, PyVal.int.inj⟩
  | .int _, .str _ => .isFalse (fun h => nomatch h)
  | .int _, .list _ => .isFalse (fun h => nomatch h)
  | .int _, .dict _ => .isFalse (fun h => nomatch h)
  | .str _, .none => .isFalse (fun h => nomatch h)
  | .str _, .bool _ => .isFalse (fun h => nomatch h)
  | .str _, .int _ => .isFalse (fun h => nomatch h)
  | .str a, .str b => decidable_of_iff (a = b) ⟨fun h => h ▸ rfl, PyVal.str.inj⟩
  | .str _, .list _ => .isFalse (fun h => nomatch h)
  | .str _, .dict _ => .isFalse (fun h => nomatch h)
  | .list _, .none => .isFalse (fun h => nomatch h)
  | .list _, .bool _ => .isFalse (fun h => nomatch h)
  | .list _, .int _ => .isFalse (fun h => nomatch h)
  | .list _, .str _ => .isFalse (fun h => nomatch h)
  | .list xs, .list ys =>
    match PyVal.decEqList xs ys with
    | .isTrue h => .isTrue (h ▸ rfl)
    | .isFalse h => .isFalse (fun hh => h (PyVal.list.inj hh))
  | .list _, .dict _ => .isFalse (fun h => nomatch h)
  | .dict _, .none => .isFalse (fun h => nomatch h)
  | .dict _, .bool _ => .isFalse (fun h => nomatch h)
  | .dict _, .int _ => .isFalse (fun h => nomatch h)
  | .dict _, .str _ => .isFalse (fun h => nomatch h)
  | .dict _, .list _ => .isFalse (fun h => nomatch h)
  | .dict xs, .dict ys =>
    match PyVal.decEqDict xs ys with
    | .isTrue h => .isTrue (h ▸ rfl)
    | .isFalse h => .isFalse (fun hh => h (PyVal.dict.inj hh))

def PyVal.decEqList : (xs ys : List PyVal) → Decidable (xs = ys)
  | [], [] => .isTrue rfl
  | [], _ :: _ => .isFalse (fun h => nomatch h)
  | _ :: _, [] => .isFalse (fun h => nomatch h)
  | x :: xs, y :: ys =>
    match PyVal.decEq x y with
    | .isFalse h => .isFalse (fun hh => h (List.cons.inj hh).1)
    | .isTrue h1 =>
      match PyVal.decEqList xs ys with
      | .isTrue h2 => .isTrue (by rw [h1, h2])
      | .isFalse h2 => .isFalse (fun hh => h2 (List.cons.inj hh).2)

def PyVal.decEqDict : (xs ys : List (String × PyVal)) → Decidable (xs = ys)
  | [], [] => .isTrue rfl
  | [], _ :: _ => .isFalse (fun h => nomatch h)
  | _ :: _, [] => .isFalse (fun h => nomatch h)
  | (k1, v1) :: xs, (k2, v2) :: ys =>
    if hk : k1 = k2 then
      match PyVal.decEq v1 v2 with
      | .isFalse h => .isFalse (fun hh => h (congrArg Prod.snd (List.cons.inj hh).1))
      | .isTrue h1 =>
        match PyVal.decEqDict xs ys with
        | .isTrue h2 => .isTrue (by rw [hk, h1, h2])
        | .isFalse h2 => .isFalse (fun hh => h2 (List.cons.inj hh).2)
    else .isFalse (fun hh => hk (congrArg Prod.fst (List.cons.inj hh).1))
end

instance : DecidableEq PyVal := PyVal.decEq

/-- Python exceptions distinguished by the model. `exception msg` models the
`raise Exception(...)` calls of the constructors. -/
inductive PyErr where
  | valueError
  | typeError
  | keyError
  | attributeError
  | exception (msg : String)
  deriving Repr, DecidableEq

def pyLookup (k : String) (d : PyDict) : Option PyVal :=
  match d with
  | [] => Option.none
  | (k2, v) :: rest => if k2 == k then some v else pyLookup k rest

/-- Python truthiness (`bool(x)`): `None`, `False`, `0`, `""` and empty
containers are falsy, everything else is truthy. -/
def pyTruthy : PyVal → Bool
  | .none => false
  | .bool b => b
  | .int n => n != 0
  | .str s => s != ""
  | .list l => !l.isEmpty
  | .dict d => !d.isEmpty

mutual
/-- Python `==` on the embedded values. `bool` is a subclass of `int` in
Python, so `True == 1` and `False == 0`. Python dict equality is insertion
order insensitive; the structural version below only coincides with it when
the two dicts list their keys in the same order, which is the only case in
which the operations embedded here ever compare two dicts. -/
def pyEq : PyVal → PyVal → Bool
  | .none, .none => true
  | .bool a, .bool b => a == b
  | .bool a, .int b => (if a then (1 : Int) else 0) == b
  | .int a, .bool b => a == (if b then (1 : Int) else 0)
  | .int a, .int b => a == b
  | .str a, .str b => a == b
  | .list a, .list b => pyEqList a b
  | .dict a, .dict b => pyEqDict a b
  | _, _ => false

def pyEqList : List PyVal → List PyVal → Bool
  | [], [] => true
  | x :: xs, y :: ys => pyEq x y && pyEqList xs ys
  | _, _ => false

def pyEqDict : List (String × PyVal) → List (String × PyVal) → Bool
  | [], [] => true
  | (k1, v1) :: xs, (k2, v2) :: ys => k1 == k2 && pyEq v1 v2 && pyEqDict xs ys
  | _, _ => false
end

/-- The whitespace characters stripped by Python's `str.strip()` and by
`int(str)` (restricted to ASCII; the code under study only meets ASCII input). -/
def isPySpace (c : Char) : Bool :=
  c == ' ' || c == '\t' || c == '\n' || c == '\r' || c == '\x0b' || c == '\x0c'

/-- Remove leading and trailing characters satisfying `p`. -/
def stripChars (l : List Char) (p : Char → Bool) : List Char :=
  ((l.dropWhile p).reverse.dropWhile p).reverse

/-- Whether `needle` occurs as a contiguous run inside `hay`. -/
def charsContain (needle : List Char) : List Char → Bool
  | [] => needle.isEmpty
  | c :: rest => needle.isPrefixOf (c :: rest) || charsContain needle rest

/-- Parse a nonempty all-digit character list as a natural number. -/
def digitsToNat (cs : List Char) : Option Nat :=
  if cs.isEmpty then Option.none
  else if cs.all Char.isDigit then
    some (cs.foldl (fun a c => a * 10 + (c.toNat - 48)) 0)
  else Option.none

/-- An optional leading sign followed by decimal digits. -/
def parseSigned : List Char → Option Int
  | '+' :: rest => (digitsToNat rest).map (fun n => (n : Int))
  | '-' :: rest => (digitsToNat rest).map (fun n => -(n : Int))
  | rest => (digitsToNat rest).map (fun n => (n : Int))

/-- Python `int(s)` for a string `s`: strip whitespace, optional sign, decimal
digits (digit-group underscores and non-ASCII digits are not modelled). -/
def strToInt (s : String) : Option Int :=
  parseSigned (stripChars s.toList isPySpace)

/-- Python `int(x)`: identity on ints, `True ↦ 1` / `False ↦ 0` (bool is a
subclass of int), string parsing raising `ValueError` on failure, and
`TypeError` for values of non-numeric, non-string type (`None`, lists, dicts). -/
def pyToInt : PyVal → Except PyErr Int
  | .int n => .ok n
  | .bool b => .ok (if b then 1 else 0)
  | .str s =>
    match strToInt s with
    | some n => .ok n
    | Option.none => .error .valueError
  | _ => .error .typeError

/-- The character of the decimal digit `d` (callers only pass `d < 10`). -/
def digitChar : Nat → Char
  | 0 => '0' | 1 => '1' | 2 => '2' | 3 => '3' | 4 => '4'
  | 5 => '5' | 6 => '6' | 7 => '7' | 8 => '8' | _ => '9'

/-- Fuel-driven digit extraction (structural recursion on the fuel so that the
kernel can evaluate it; the fuel `n` itself always suffices). -/
def natDigitsRevGo : Nat → Nat → List Char
  | _, 0 => []
  | 0, _ => []
  | fuel + 1, n => digitChar (n % 10) :: natDigitsRevGo fuel (n / 10)

/-- Decimal digits of `n`, least significant first (empty for `0`). -/
def natDigitsRev (n : Nat) : List Char :=
  natDigitsRevGo n n

theorem natDigitsRevGo_congr : ∀ (n f1 f2 : Nat), n ≤ f1 → n ≤ f2 →
    natDigitsRevGo f1 n = natDigitsRevGo f2 n := by
  intro n
  induction n using Nat.strong_induction_on with
  | _ n ih =>
    intro f1 f2 h1 h2
    cases n with
    | zero => cases f1 <;> cases f2 <;> rfl
    | succ m =>
      cases f1 with
      | zero => omega
      | succ g1 =>
        cases f2 with
        | zero => omega
        | succ g2 =>
          have hd : (m + 1) / 10 < m + 1 := Nat.div_lt_self (Nat.succ_pos m) (by decide)
          simp only [natDigitsRevGo]
          congr 1
          exact ih ((m + 1) / 10) hd g1 g2 (by omega) (by omega)

/-- The recurrence of `natDigitsRev`. -/
theorem natDigitsRev_eq (n : Nat) :
    natDigitsRev n = if n = 0 then [] else digitChar (n % 10) :: natDigitsRev (n / 10) := by
  cases n with
  | zero => rfl
  | succ m =>
    rw [if_neg (Nat.succ_ne_zero m)]
    show natDigitsRevGo (m + 1) (m + 1) = _
    have hd : (m + 1) / 10 < m + 1 := Nat.div_lt_self (Nat.succ_pos m) (by decide)
    simp only [natDigitsRevGo]
    congr 1
    exact natDigitsRevGo_congr ((m + 1) / 10) m ((m + 1) / 10) (by omega) (le_refl _)

/-- Python `str(n)` for a natural number: its decimal rendering. -/
def pyNatStr (n : Nat) : String :=
  if n = 0 then "0" else String.mk (natDigitsRev n).reverse

/-- Python `str(n)` for an integer. -/
def pyIntStr (n : Int) : String :=
  if n < 0 then "-" ++ pyNatStr n.natAbs else pyNatStr n.natAbs

def joinComma (l : List String) : String := String.intercalate ", " l

mutual
/-- Python `repr(x)` on the embedded values (string escaping not modelled). -/
def pyReprV : PyVal → String
  | .none => "None"
  | .bool b => if b then "True" else "False"
  | .int n => pyIntStr n
  | .str s => "'" ++ s ++ "'"
  | .list l => "[" ++ joinComma (pyReprList l) ++ "]"
  | .dict d => "\x7b" ++ joinComma (pyReprDict d) ++ "\x7d"

def pyReprList : List PyVal → List String
  | [] => []
  | v :: rest => pyReprV v :: pyReprList rest

def pyReprDict : List (String × PyVal) → List String
  | [] => []
  | (k, v) :: rest => ("'" ++ k ++ "': " ++ pyReprV v) :: pyReprDict rest
end

/-- Python `str(x)`: strings unchanged, `repr` otherwise. -/
def pyStr : PyVal → String
  | .str s => s
  | v => pyReprV v

/-- Python `k in v` for a string literal `k`: key membership for dicts,
element membership for lists, substring test for strings, `TypeError`
otherwise. -/
def pyHasKey (v : PyVal) (k : String) : Except PyErr Bool :=
  match v with
  | .dict d => .ok (d.any (fun kv => kv.1 == k))
  | .list l => .ok (l.any (fun e => pyEq e (.str k)))
  | .str s => .ok (charsContain k.toList s.toList)
  | _ => .error .typeError

/-- Python `v[k]` for a string key `k`: dict lookup (`KeyError` when absent),
`TypeError` for any non-dict (string and list subscripts require integers). -/
def pySubscript (v : PyVal) (k : String) : Except PyErr PyVal :=
  match v with
  | .dict d =>
    match pyLookup k d with
    | some x => .ok x
    | Option.none => .error .keyError
  | _ => .error .typeError

/-- Python `v.get(k, default)`: defined on dicts, `AttributeError` otherwise. -/
def pyGet (v : PyVal) (k : String) (dflt : PyVal) : Except PyErr PyVal :=
  match v with
  | .dict d => .ok ((pyLookup k d).getD dflt)
  | _ => .error .attributeError

/-- Python `x in v` for an arbitrary `x`: element equality over lists,
key membership for dicts (`TypeError` on unhashable `x`), substring test for
strings (`TypeError` unless `x` is a string), `TypeError` on non-containers. -/
def pyIn (x : PyVal) (v : PyVal) : Except PyErr Bool :=
  match v with
  | .list l => .ok (l.any (fun e => pyEq e x))
  | .dict d =>
    match x with
    | .list _ => .error .typeError
    | .dict _ => .error .typeError
    | _ => .ok (d.any (fun kv => pyEq (.str kv.1) x))
  | .str s =>
    match x with
    | .str xs => .ok (charsContain xs.toList s.toList)
    | _ => .error .typeError
  | _ => .error .typeError

/-- Python `for i in v`: the sequence of iterated values (`TypeError` on
non-iterables; dict iteration yields the keys). -/
def pyIter : PyVal → Except PyErr (List PyVal)
  | .list l => .ok l
  | .str s => .ok (s.toList.map (fun c => .str (String.mk [c])))
  | .dict d => .ok (d.map (fun kv => .str kv.1))
  | _ => .error .typeError

/-- `task_input[problemid]`: dict subscript on the submitted-input map. -/
def dictGetItem (d : PyDict) (k : String) : Except PyErr PyVal :=
  match pyLookup k d with
  | some v => .ok v
  | Option.none => .error .keyError

/-- The translation catalogs handed to a problem constructor: one message
catalog per language key (`Option.none` is Python's `None` language). The task
loader always supplies a dict here, so the `translations` attribute is
modelled as the dict itself. -/
abbrev Translations := List (Option String × List (String × String))

def catalogLookup (tr : Translations) (language : Option String) :
    Option (List (String × String)) :=
  match tr with
  | [] => Option.none
  | (l, cat) :: rest => if l == language then some cat else catalogLookup rest language

def msgLookup (cat : List (String × String)) (s : String) : String :=
  match cat with
  | [] => s
  | (k, v) :: rest => if k == s then v else msgLookup rest s

/-- `BasicProblem.gettext`: look up the catalog registered for `language`,
falling back to `gettext.NullTranslations()` (which returns the message
unchanged); a catalog translates string messages and returns the message
itself when it has no entry for it. -/
def problemGettext (tr : Translations) (language : Option String) (msg : PyVal) : PyVal :=
  match catalogLookup tr language with
  | Option.none => msg
  | some cat =>
    match msg with
    | .str s => .str (msgLookup cat s)
    | v => v

/-- Modelled from the spec: `id_checker` (defined in `inginious/common/base.py`,
which is not under `src/`) is the "restricted-identifier validator" the spec
refers to: an id is valid iff it is nonempty and drawn from the identifier-safe
charset (ASCII letters, digits, underscore, hyphen). -/
def id_checker (s : String) : Bool :=
  s != "" && s.toList.all (fun c => c.isAlphanum || c == '_' || c == '-')

/-- The 4-tuple returned by every `check_answer`: tri-state correctness
(`Option.none` is Python `None`, "defer to the external grader"), the unused
task-level message slot (always `None`), the problem feedback message list or
`None`, and the MCQ invalid-answer count. -/
abbrev CheckAnswerResult := Option Bool × Option PyVal × Option (List PyVal) × Nat

/-! ## `MatchProblem` -/

structure MatchProblem where
  id : String
  name : PyVal
  header : PyVal
  originalContent : PyDict
  translations : Translations
  answer : String
  deriving Repr, DecidableEq

/-- `MatchProblem.__init__` (inlining `BasicProblem.__init__`): validates the
problem id, extracts `name`/`header` (defaulting to `""`), keeps the raw
descriptor, requires an `answer` key, and stores `str(content["answer"])`. -/
def MatchProblem.init (problemid : String) (content : PyDict)
    (translations : Translations) : Except PyErr MatchProblem :=
  if !id_checker problemid then
    .error (.exception ("Invalid problem _id: " ++ problemid))
  else
    let name := (pyLookup "name" content).getD (.str "")
    let header := (pyLookup "header" content).getD (.str "")
    match pyLookup "answer" content with
    | Option.none => .error (.exception "There is no answer in this problem with type==match")
    | some a =>
      .ok { id := problemid, name, header, originalContent := content,
            translations, answer := pyStr a }

/-- `BasicProblem.get_original_content` for a match problem: `dict(x)` builds a
fresh shallow copy, equal by content to the stored descriptor. -/
def MatchProblem.get_original_content (p : MatchProblem) : PyDict :=
  p.originalContent

/-- `MatchProblem.input_is_consistent`: `self.get_id() in task_input`. -/
def MatchProblem.input_is_consistent (p : MatchProblem) (task_input : PyDict)
    (default_allowed_extension default_max_size : PyVal) : Except PyErr Bool :=
  .ok (task_input.any (fun kv => kv.1 == p.id))

/-- `MatchProblem.check_answer`: `task_input[self.get_id()].strip() == self._answer`
(`KeyError` when the id is absent, `AttributeError` when the value has no
`.strip`, i.e. is not a string). -/
def MatchProblem.check_answer (p : MatchProblem) (task_input : PyDict)
    (language : Option String) : Except PyErr CheckAnswerResult := do
  let v ← dictGetItem task_input p.id
  match v with
  | .str s =>
    if String.mk (stripChars s.toList isPySpace) == p.answer then
      .ok (some true, Option.none, some [.str "_correct_answer"], 0)
    else
      .ok (some false, Option.none, some [.str "_wrong_answer"], 0)
  | _ => .error .attributeError

/-! ## `MultipleChoiceProblem` -/

/-- One parsed choice: the `data` dict built by `MultipleChoiceProblem.__init__`
(`index` assigned by declaration order, `text`, `feedback` — `PyVal.none` when
the descriptor has none — and the `valid` flag). -/
structure Choice where
  index : Nat
  text : PyVal
  feedback : PyVal
  valid : Bool
  deriving Repr, DecidableEq

structure MultipleChoiceProblem where
  id : String
  name : PyVal
  header : PyVal
  originalContent : PyDict
  translations : Translations
  /-- Truthiness of `content.get("multiple", False)`; the attribute is only
  ever used as a boolean condition. -/
  multiple : Bool
  limit : Int
  /-- Truthiness of `content.get("centralize", False)`; only used as a boolean. -/
  centralize : Bool
  error_message : PyVal
  success_message : PyVal
  choices : List Choice
  deriving Repr, DecidableEq

/-- Python `isinstance(x, int)` together with the integer value: ints, and
bools (`bool` is a subclass of `int`, `True ↦ 1`, `False ↦ 0`). -/
def pyIntVal : PyVal → Option Int
  | .int n => some n
  | .bool b => some (if b then 1 else 0)
  | _ => Option.none

/-- The `for index, choice in enumerate(content["choices"])` loop of
`MultipleChoiceProblem.__init__`, accumulating `(good_choices, bad_choices)`.
A choice must carry a `text` key; `feedback` defaults to `None` and the
truthiness of `valid` (default `False`) selects the partition. Non-dict
choices raise (`TypeError` from `"text" not in choice` or from the subscript). -/
def parseChoices (problemid : String) : List PyVal → Nat →
    Except PyErr (List Choice × List Choice)
  | [], _ => .ok ([], [])
  | choice :: rest, index => do
    let hasText ← pyHasKey choice "text"
    if !hasText then
      .error (.exception ("A choice in " ++ problemid ++ " does not have text"))
    else do
      let text ← pySubscript choice "text"
      let feedback ← pyGet choice "feedback" .none
      let validVal ← pyGet choice "valid" (.bool false)
      let data : Choice := { index, text, feedback, valid := pyTruthy validVal }
      let (good, bad) ← parseChoices problemid rest (index + 1)
      if data.valid then .ok (data :: good, bad) else .ok (good, data :: bad)

/-- The `limit` block of `MultipleChoiceProblem.__init__`: `self._limit = 0`
when no limit is declared; a declared limit must satisfy
`isinstance(limit, int) and limit >= 0 and (not multiple or
limit >= len(good_choices) or limit == 0)`, else the init raises. -/
def parseLimit (problemid : String) (content : PyDict) (multiple : Bool)
    (goodLen : Nat) : Except PyErr Int :=
  match pyLookup "limit" content with
  | Option.none => .ok 0
  | some lv =>
    match pyIntVal lv with
    | some l =>
      if l ≥ 0 && (!multiple || l ≥ (goodLen : Int) || l == 0) then .ok l
      else .error (.exception ("Invalid limit in problem " ++ problemid))
    | Option.none => .error (.exception ("Invalid limit in problem " ++ problemid))

/-- `MultipleChoiceProblem.__init__`: id check, `multiple` flag, `choices`
must be present and a list, the enumeration loop, the at-least-one-valid-choice
check, the `limit` validation, the message options, and finally
`self._choices = good_choices + bad_choices`. -/
def MultipleChoiceProblem.init (problemid : String) (content : PyDict)
    (translations : Translations) : Except PyErr MultipleChoiceProblem :=
  if !id_checker problemid then
    .error (.exception ("Invalid problem _id: " ++ problemid))
  else
    let name := (pyLookup "name" content).getD (.str "")
    let header := (pyLookup "header" content).getD (.str "")
    let multiple := pyTruthy ((pyLookup "multiple" content).getD (.bool false))
    match pyLookup "choices" content with
    | Option.none =>
      .error (.exception ("Multiple choice problem " ++ problemid ++
        " does not have choices or choices are not an array"))
    | some choicesVal =>
      match choicesVal with
      | .list cs => do
        let (good, bad) ← parseChoices problemid cs 0
        if good.isEmpty then
          .error (.exception ("Problem " ++ problemid ++ " does not have any valid answer"))
        else do
          let limit ← parseLimit problemid content multiple good.length
          .ok { id := problemid, name, header, originalContent := content, translations,
                multiple, limit,
                centralize := pyTruthy ((pyLookup "centralize" content).getD (.bool false)),
                error_message := (pyLookup "error_message" content).getD .none,
                success_message := (pyLookup "success_message" content).getD .none,
                choices := good ++ bad }
      | _ =>
        .error (.exception ("Multiple choice problem " ++ problemid ++
          " does not have choices or choices are not an array"))

def MultipleChoiceProblem.get_original_content (p : MultipleChoiceProblem) : PyDict :=
  p.originalContent

/-- `MultipleChoiceProblem.get_choice_with_index`: first stored choice whose
`index` equals the argument, else `None`. -/
def MultipleChoiceProblem.get_choice_with_index (p : MultipleChoiceProblem)
    (index : Int) : Option Choice :=
  p.choices.find? (fun entry => ((entry.index : Int)) == index)

/-- The `try: for entry in task_input[id]: ... except ValueError: return False`
body of `MultipleChoiceProblem.input_is_consistent`: only `ValueError` (a
string that does not parse as an int) is caught and turned into `False`; any
other exception from `int(entry)` (notably `TypeError`) propagates. -/
def mcConsistencyLoop (p : MultipleChoiceProblem) : List PyVal → Except PyErr Bool
  | [] => .ok true
  | entry :: rest =>
    match pyToInt entry with
    | .error .valueError => .ok false
    | .error e => .error e
    | .ok n =>
      if (p.get_choice_with_index n).isNone then .ok false
      else mcConsistencyLoop p rest

/-- `MultipleChoiceProblem.input_is_consistent`. -/
def MultipleChoiceProblem.input_is_consistent (p : MultipleChoiceProblem)
    (task_input : PyDict) (default_allowed_extension default_max_size : PyVal) :
    Except PyErr Bool :=
  match pyLookup p.id task_input with
  | Option.none => .ok false
  | some v =>
    if p.multiple then
      match v with
      | .list entries => mcConsistencyLoop p entries
      | _ => .ok false
    else
      match pyToInt v with
      | .error .valueError => .ok false
      | .error e => .error e
      | .ok n => if (p.get_choice_with_index n).isNone then .ok false else .ok true

/-- The `for choice in self._choices` loop of the multi-select branch of
`check_answer`: a valid choice whose index (as int or as its string form) is
absent from the submitted value, or an invalid choice whose index is present,
sets `valid = False` and increments `invalid_count`. Membership tests follow
Python's short-circuit evaluation order. -/
def mcChoiceLoop (val : PyVal) : List Choice → Bool → Nat → Except PyErr (Bool × Nat)
  | [], valid, invalid_count => .ok (valid, invalid_count)
  | choice :: rest, valid, invalid_count =>
    if choice.valid then do
      let m1 ← pyIn (.int (choice.index : Int)) val
      if !m1 then do
        let m2 ← pyIn (.str (pyNatStr choice.index)) val
        if !m2 then mcChoiceLoop val rest false (invalid_count + 1)
        else mcChoiceLoop val rest valid invalid_count
      else mcChoiceLoop val rest valid invalid_count
    else do
      let m1 ← pyIn (.int (choice.index : Int)) val
      if m1 then mcChoiceLoop val rest false (invalid_count + 1)
      else do
        let m2 ← pyIn (.str (pyNatStr choice.index)) val
        if m2 then mcChoiceLoop val rest false (invalid_count + 1)
        else mcChoiceLoop val rest valid invalid_count

/-- The `for i in task_input[id]` feedback-collection loop of the multi-select
branch: `int(i)` (exceptions propagate), `get_choice_with_index` (subscripting
its `None` result raises `TypeError`), and the localized feedback of each
submitted choice that has one, in submission order. -/
def mcFeedbackLoop (p : MultipleChoiceProblem) (language : Option String) :
    List PyVal → Except PyErr (List PyVal)
  | [] => .ok []
  | i :: rest => do
    let n ← pyToInt i
    match p.get_choice_with_index n with
    | Option.none => .error .typeError
    | some choice => do
      let msgs ← mcFeedbackLoop p language rest
      match choice.feedback with
      | .none => .ok msgs
      | fb => .ok (problemGettext p.translations language fb :: msgs)

/-- `MultipleChoiceProblem.check_answer`. The submitted value is subscripted
first (every control path of the source subscripts it before any other
observable effect, so the `KeyError` for a missing id is unchanged by hoisting
the lookup). -/
def MultipleChoiceProblem.check_answer (p : MultipleChoiceProblem)
    (task_input : PyDict) (language : Option String) : Except PyErr CheckAnswerResult := do
  let inputVal ← dictGetItem task_input p.id
  let (valid, msgs, invalid_count) ←
    (if p.multiple then do
      let (valid, invalid_count) ← mcChoiceLoop inputVal p.choices true 0
      let entries ← pyIter inputVal
      let msgs ← mcFeedbackLoop p language entries
      pure (valid, msgs, invalid_count)
    else do
      let n ← pyToInt inputVal
      match p.get_choice_with_index n with
      | Option.none => .error .typeError
      | some choice =>
        let valid := choice.valid
        let invalid_count := if valid then 0 else 1
        let msgs :=
          match choice.feedback with
          | .none => []
          | fb => [problemGettext p.translations language fb]
        pure (valid, msgs, invalid_count))
  if !valid then
    let msgs :=
      if p.error_message != .none then
        problemGettext p.translations language p.error_message :: msgs
      else if !p.centralize then
        (.str (if p.multiple then "_wrong_answer_multiple" else "_wrong_answer")) :: msgs
      else msgs
    if msgs.length != 0 then .ok (some false, Option.none, some msgs, invalid_count)
    else .ok (some false, Option.none, Option.none, invalid_count)
  else
    let msgs :=
      if p.success_message != .none then
        problemGettext p.translations language p.success_message :: msgs
      else msgs
    if msgs.length != 0 then .ok (some true, Option.none, some msgs, 0)
    else .ok (some true, Option.none, Option.none, 0)

/-! ## Code problem family -/

/-- The box classes named by `BasicCodeProblem._box_types`. -/
inductive BoxKind where
  | inputBox
  | multilineBox
  | textBox
  | fileBox
  deriving Repr, DecidableEq

/-- Modelled from the spec: the box constructors (`InputBox`, `MultilineBox`,
`TextBox`, `FileBox`) live in `inginious/common/tasks_code_boxes.py`, which is
not under `src/`. The spec assigns them no construction-time failure of their
own (all the failures it lists — unknown type, bad box id, empty id where
disallowed — are checked by the problem classes), so a box is modelled as a
record of its class, id and raw descriptor. -/
structure Box where
  kind : BoxKind
  boxid : String
  content : PyVal
  deriving Repr, DecidableEq

/-- `BasicCodeProblem._box_types`: the fixed box "type"-string dispatch table. -/
def boxTypeOf : String → Option BoxKind
  | "input-text" => some .inputBox
  | "input-decimal" => some .inputBox
  | "input-integer" => some .inputBox
  | "multiline" => some .multilineBox
  | "text" => some .textBox
  | "file" => some .fileBox
  | _ => Option.none

/-- `BasicCodeProblem._create_box`: the box id must pass `id_checker` or be
empty, the descriptor must carry a known `type`, and the matching box
constructor is invoked. A non-string `type` value raises `TypeError` (from the
dict-key membership test or from concatenating it into the error message). -/
def createBox (boxid : String) (box_content : PyVal) : Except PyErr Box :=
  if !id_checker boxid && boxid != "" then
    .error (.exception ("Invalid box _id " ++ boxid))
  else do
    let hasType ← pyHasKey box_content "type"
    if !hasType then
      .error (.exception ("Box " ++ boxid ++ " does not have a type"))
    else do
      let tv ← pySubscript box_content "type"
      match tv with
      | .str t =>
        match boxTypeOf t with
        | some kind => .ok { kind, boxid, content := box_content }
        | Option.none =>
          .error (.exception ("Unknown box type " ++ t ++ "for box _id " ++ boxid))
      | _ => .error .typeError

structure CodeProblem where
  id : String
  name : PyVal
  header : PyVal
  originalContent : PyDict
  translations : Translations
  boxes : List Box
  deriving Repr, DecidableEq

structure CodeSingleLineProblem where
  id : String
  name : PyVal
  header : PyVal
  originalContent : PyDict
  translations : Translations
  boxes : List Box
  deriving Repr, DecidableEq

structure CodeFileProblem where
  id : String
  name : PyVal
  header : PyVal
  originalContent : PyDict
  translations : Translations
  boxes : List Box
  deriving Repr, DecidableEq

/-- The `for boxid, box_content in content["boxes"].items()` loop of
`CodeProblem.__init__`: an explicitly enumerated empty box id raises before
the box is built, every other entry goes through `_create_box`. -/
def codeBoxesLoop : List (String × PyVal) → Except PyErr (List Box)
  | [] => .ok []
  | (boxid, box_content) :: rest =>
    if boxid == "" then .error (.exception "Empty box ids are not allowed")
    else do
      let b ← createBox boxid box_content
      let bs ← codeBoxesLoop rest
      .ok (b :: bs)

/-- `CodeProblem.__init__` (inlining `BasicCodeProblem.__init__` and
`BasicProblem.__init__`). `environment` is the owning task's environment
(`task.get_environment()`), which must not be `None`. With an explicit
`boxes` dict the enumeration loop runs (`.items()` on a non-dict raises
`AttributeError`); otherwise a single implicit multiline box is built,
forwarding `language` when declared and `optional` (default `False`). -/
def CodeProblem.init (environment : Option String) (problemid : String)
    (content : PyDict) (translations : Translations) : Except PyErr CodeProblem :=
  if !id_checker problemid then
    .error (.exception ("Invalid problem _id: " ++ problemid))
  else
    let name := (pyLookup "name" content).getD (.str "")
    let header := (pyLookup "header" content).getD (.str "")
    if environment.isNone then
      .error (.exception
        "Environment undefined, but there is a problem with type=code or type=code-single-line")
    else do
      let boxes ←
        (match pyLookup "boxes" content with
        | some bv =>
          match bv with
          | .dict bs => codeBoxesLoop bs
          | _ => .error .attributeError
        | Option.none =>
          let optionalVal := (pyLookup "optional" content).getD (.bool false)
          match pyLookup "language" content with
          | some lang =>
            (createBox "" (.dict [("type", .str "multiline"), ("language", lang),
              ("optional", optionalVal)])).map (fun b => [b])
          | Option.none =>
            (createBox "" (.dict [("type", .str "multiline"),
              ("optional", optionalVal)])).map (fun b => [b]))
      .ok { id := problemid, name, header, originalContent := content, translations, boxes }

def CodeProblem.get_original_content (p : CodeProblem) : PyDict :=
  p.originalContent

/-- `CodeSingleLineProblem.__init__`: a single implicit `input-text` box with
the empty id, forwarding `optional` (default `False`). -/
def CodeSingleLineProblem.init (environment : Option String) (problemid : String)
    (content : PyDict) (translations : Translations) : Except PyErr CodeSingleLineProblem :=
  if !id_checker problemid then
    .error (.exception ("Invalid problem _id: " ++ problemid))
  else
    let name := (pyLookup "name" content).getD (.str "")
    let header := (pyLookup "header" content).getD (.str "")
    if environment.isNone then
      .error (.exception
        "Environment undefined, but there is a problem with type=code or type=code-single-line")
    else do
      let b ← createBox "" (.dict [("type", .str "input-text"),
        ("optional", (pyLookup "optional" content).getD (.bool false))])
      .ok { id := problemid, name, header, originalContent := content, translations,
            boxes := [b] }

def CodeSingleLineProblem.get_original_content (p : CodeSingleLineProblem) : PyDict :=
  p.originalContent

/-- `CodeFileProblem.__init__`: a single implicit `file` box with the empty id,
forwarding `max_size` and `allowed_exts` (default `None`). -/
def CodeFileProblem.init (environment : Option String) (problemid : String)
    (content : PyDict) (translations : Translations) : Except PyErr CodeFileProblem :=
  if !id_checker problemid then
    .error (.exception ("Invalid problem _id: " ++ problemid))
  else
    let name := (pyLookup "name" content).getD (.str "")
    let header := (pyLookup "header" content).getD (.str "")
    if environment.isNone then
      .error (.exception
        "Environment undefined, but there is a problem with type=code or type=code-single-line")
    else do
      let b ← createBox "" (.dict [("type", .str "file"),
        ("max_size", (pyLookup "max_size" content).getD .none),
        ("allowed_exts", (pyLookup "allowed_exts" content).getD .none)])
      .ok { id := problemid, name, header, originalContent := content, translations,
            boxes := [b] }

def CodeFileProblem.get_original_content (p : CodeFileProblem) : PyDict :=
  p.originalContent

/-! ## Facts about the decimal rendering and its round trip through `int()` -/

theorem digitChar_isDigit {d : Nat} (h : d < 10) : (digitChar d).isDigit = true := by
  interval_cases d <;> decide

theorem digitChar_toNat {d : Nat} (h : d < 10) : (digitChar d).toNat - 48 = d := by
  interval_cases d <;> decide

theorem digitChar_not_space {d : Nat} (h : d < 10) : isPySpace (digitChar d) = false := by
  interval_cases d <;> decide

theorem natDigitsRev_digits : ∀ n : Nat, ∀ c ∈ natDigitsRev n, c.isDigit = true := by
  intro n
  induction n using Nat.strong_induction_on with
  | _ n ih =>
    intro c hc
    by_cases h0 : n = 0
    · rw [natDigitsRev_eq, if_pos h0] at hc
      simp at hc
    · rw [natDigitsRev_eq, if_neg h0, List.mem_cons] at hc
      rcases hc with rfl | hmem
      · exact digitChar_isDigit (Nat.mod_lt _ (by decide))
      · exact ih (n / 10) (Nat.div_lt_self (Nat.pos_of_ne_zero h0) (by decide)) c hmem

theorem natDigitsRev_not_space : ∀ n : Nat, ∀ c ∈ natDigitsRev n, isPySpace c = false := by
  intro n
  induction n using Nat.strong_induction_on with
  | _ n ih =>
    intro c hc
    by_cases h0 : n = 0
    · rw [natDigitsRev_eq, if_pos h0] at hc
      simp at hc
    · rw [natDigitsRev_eq, if_neg h0, List.mem_cons] at hc
      rcases hc with rfl | hmem
      · exact digitChar_not_space (Nat.mod_lt _ (by decide))
      · exact ih (n / 10) (Nat.div_lt_self (Nat.pos_of_ne_zero h0) (by decide)) c hmem

theorem foldl_natDigitsRev (n : Nat) :
    ∀ a : Nat, ((natDigitsRev n).reverse).foldl (fun a c => a * 10 + (c.toNat - 48)) a
      = a * 10 ^ (natDigitsRev n).length + n := by
  induction n using Nat.strong_induction_on with
  | _ n ih =>
    intro a
    by_cases h0 : n = 0
    · subst h0
      rw [natDigitsRev_eq, if_pos rfl]
      simp
    · rw [natDigitsRev_eq, if_neg h0, List.reverse_cons, List.foldl_append,
        ih (n / 10) (Nat.div_lt_self (Nat.pos_of_ne_zero h0) (by decide)) a]
      simp only [List.foldl_cons, List.foldl_nil, List.length_cons]
      rw [digitChar_toNat (Nat.mod_lt _ (by decide)), pow_succ]
      generalize (10 : Nat) ^ (natDigitsRev (n / 10)).length = X
      rw [← mul_assoc]
      omega

theorem pyNatStr_toList (n : Nat) (h : n ≠ 0) :
    (pyNatStr n).toList = (natDigitsRev n).reverse := by
  rw [pyNatStr, if_neg h]
  rfl

theorem pyNatStr_toList_digits (n : Nat) : ∀ c ∈ (pyNatStr n).toList, c.isDigit = true := by
  by_cases h0 : n = 0
  · subst h0
    intro c hc
    simp only [show (pyNatStr 0).toList = ['0'] from rfl, List.mem_singleton] at hc
    subst hc
    decide
  · rw [pyNatStr_toList n h0]
    intro c hc
    exact natDigitsRev_digits n c (List.mem_reverse.mp hc)

theorem pyNatStr_toList_not_space (n : Nat) :
    ∀ c ∈ (pyNatStr n).toList, isPySpace c = false := by
  by_cases h0 : n = 0
  · subst h0
    intro c hc
    simp only [show (pyNatStr 0).toList = ['0'] from rfl, List.mem_singleton] at hc
    subst hc
    decide
  · rw [pyNatStr_toList n h0]
    intro c hc
    exact natDigitsRev_not_space n c (List.mem_reverse.mp hc)

theorem digitsToNat_pyNatStr (n : Nat) : digitsToNat (pyNatStr n).toList = some n := by
  by_cases h0 : n = 0
  · subst h0
    decide
  · rw [pyNatStr_toList n h0, digitsToNat]
    have hne : ((natDigitsRev n).reverse).isEmpty = false := by
      rw [natDigitsRev_eq, if_neg h0]
      simp
    have hdig : ((natDigitsRev n).reverse).all Char.isDigit = true := by
      rw [List.all_eq_true]
      intro c hc
      exact natDigitsRev_digits n c (List.mem_reverse.mp hc)
    rw [hne, hdig]
    simp only [Bool.false_eq_true, if_false, if_true]
    rw [foldl_natDigitsRev n 0]
    simp

theorem dropWhile_eq_self_of {α : Type} {p : α → Bool} {l : List α}
    (h : ∀ c ∈ l, p c = false) : l.dropWhile p = l := by
  cases l with
  | nil => rfl
  | cons c rest =>
    rw [List.dropWhile_cons, h c (List.mem_cons_self _ _)]
    simp

theorem stripChars_eq_self {p : Char → Bool} {l : List Char}
    (h : ∀ c ∈ l, p c = false) : stripChars l p = l := by
  rw [stripChars, dropWhile_eq_self_of h,
    dropWhile_eq_self_of (fun c hc => h c (List.mem_reverse.mp hc)), List.reverse_reverse]

theorem parseSigned_digits {cs : List Char} (h : ∀ c ∈ cs, c.isDigit = true) :
    parseSigned cs = (digitsToNat cs).map (fun n => (n : Int)) := by
  rw [parseSigned.eq_def]
  split
  · next rest => exact absurd (h '+' (List.mem_cons_self _ _)) (by decide)
  · next rest => exact absurd (h '-' (List.mem_cons_self _ _)) (by decide)
  · rfl

theorem strToInt_pyNatStr (n : Nat) : strToInt (pyNatStr n) = some (n : Int) := by
  rw [strToInt, stripChars_eq_self (pyNatStr_toList_not_space n),
    parseSigned_digits (pyNatStr_toList_digits n), digitsToNat_pyNatStr]
  rfl

theorem pyToInt_str_pyNatStr (n : Nat) : pyToInt (.str (pyNatStr n)) = .ok (n : Int) := by
  simp only [pyToInt, strToInt_pyNatStr]

theorem pyNatStr_inj {a b : Nat} (h : pyNatStr a = pyNatStr b) : a = b := by
  have ha := strToInt_pyNatStr a
  rw [h, strToInt_pyNatStr b] at ha
  exact_mod_cast (Option.some.inj ha).symm

/-! ## Generic facts about `Except` computations -/

theorem except_bind_ok {ε α β : Type} {x : Except ε α} {f : α → Except ε β} {b : β}
    (h : x >>= f = .ok b) : ∃ a, x = .ok a ∧ f a = .ok b := by
  cases x with
  | error e => exact absurd h (by simp [Bind.bind, Except.bind])
  | ok a => exact ⟨a, rfl, by simpa [Bind.bind, Except.bind] using h⟩

theorem except_bind_ok_of {ε α β : Type} {x : Except ε α} {f : α → Except ε β} {a : α}
    (hx : x = .ok a) : x >>= f = f a := by
  subst hx
  rfl

/-! ## Claim theorems -/

/-- **C2.** For every `MatchProblem` and every submitted-input map holding a
string value under the problem's id, `check_answer` answers `True` iff the
submitted string with leading and trailing whitespace stripped equals the
stored answer exactly, with feedback key `"_correct_answer"` when equal and
`"_wrong_answer"` otherwise, and invalid count `0` in both cases. -/
theorem C2_match_check_answer (p : MatchProblem) (task_input : PyDict)
    (language : Option String) (s : String)
    (h : pyLookup p.id task_input = some (.str s)) :
    p.check_answer task_input language =
      if String.mk (stripChars s.toList isPySpace) == p.answer then
        .ok (some true, Option.none, some [.str "_correct_answer"], 0)
      else
        .ok (some false, Option.none, some [.str "_wrong_answer"], 0) := by
  rw [MatchProblem.check_answer,
    except_bind_ok_of (show dictGetItem task_input p.id = .ok (.str s) by rw [dictGetItem, h])]

/-- Witness for C2: the spec example with stored answer `"Hello"`; `"  Hello "`
strips to `"Hello"` and is correct, `"hello"` is wrong. -/
theorem C2_match_check_answer_witness :
    (MatchProblem.check_answer
        { id := "m", name := .str "", header := .str "",
          originalContent := [("answer", .str "Hello")], translations := [],
          answer := "Hello" }
        [("m", .str "  Hello ")] Option.none
      = .ok (some true, Option.none, some [.str "_correct_answer"], 0)) ∧
    (MatchProblem.check_answer
        { id := "m", name := .str "", header := .str "",
          originalContent := [("answer", .str "Hello")], translations := [],
          answer := "Hello" }
        [("m", .str "hello")] Option.none
      = .ok (some false, Option.none, some [.str "_wrong_answer"], 0)) :=
  ⟨(C2_match_check_answer
      { id := "m", name := .str "", header := .str "",
        originalContent := [("answer", .str "Hello")], translations := [], answer := "Hello" }
      [("m", .str "  Hello ")] Option.none "  Hello " rfl).trans (by rfl),
   (C2_match_check_answer
      { id := "m", name := .str "", header := .str "",
        originalContent := [("answer", .str "Hello")], translations := [], answer := "Hello" }
      [("m", .str "hello")] Option.none "hello" rfl).trans (by rfl)⟩

/-- **C10.** For every `MatchProblem` and every submitted-input map,
`input_is_consistent` returns `True` iff the problem's id occurs as a key of
the map, whatever the associated value is (so a non-string value, on which
`check_answer` would fail, still passes the consistency check). -/
theorem any_key_iff_lookup (k : String) : ∀ d : PyDict,
    d.any (fun kv => kv.1 == k) = true ↔ ∃ v, pyLookup k d = some v := by
  intro d
  induction d with
  | nil => simp [pyLookup]
  | cons kv rest ih =>
    cases kv with
    | mk k2 w =>
      rw [List.any_cons, pyLookup]
      by_cases hke : (k2 == k) = true
      · simp [hke]
      · simp [hke, ih]

theorem C10_match_input_is_consistent (p : MatchProblem) (task_input : PyDict)
    (default_allowed_extension default_max_size : PyVal) :
    p.input_is_consistent task_input default_allowed_extension default_max_size
      = .ok true ↔ ∃ v, pyLookup p.id task_input = some v := by
  rw [MatchProblem.input_is_consistent]
  constructor
  · intro h
    exact (any_key_iff_lookup p.id task_input).mp (Except.ok.inj h)
  · intro h
    rw [(any_key_iff_lookup p.id task_input).mpr h]

/-- **C3** is refuted on the code (status: code_bug): `input_is_consistent`
does raise. `int()` raises `TypeError` (not `ValueError`, the only exception
the method catches) on values of non-numeric, non-string type. Left conjunct:
a single-select multiple-choice problem with submitted value `None`; right
conjunct: a multi-select one whose submitted list contains a nested list. In
both cases the embedded `input_is_consistent` yields an uncaught `TypeError`
instead of a boolean. -/
theorem C3_input_is_consistent_raises :
    ((MultipleChoiceProblem.init "q"
        [("choices", .list [.dict [("text", .str "a"), ("valid", .bool true)]])] []).map
      (fun p => p.input_is_consistent [("q", PyVal.none)] .none .none)
      = .ok (.error .typeError)) ∧
    ((MultipleChoiceProblem.init "q"
        [("multiple", .bool true),
         ("choices", .list [.dict [("text", .str "a"), ("valid", .bool true)]])] []).map
      (fun p => p.input_is_consistent [("q", .list [.list []])] .none .none)
      = .ok (.error .typeError)) :=
  ⟨rfl, rfl⟩

/-- **C8.** For every problem variant, a successful construction stores the
descriptor it was given, and `get_original_content` returns it unchanged
(Python builds `dict(self._original_content)`, a shallow copy equal by content
to the original). -/
theorem C8_get_original_content_roundtrip :
    (∀ pid content tr p, MatchProblem.init pid content tr = .ok p →
      p.get_original_content = content) ∧
    (∀ pid content tr p, MultipleChoiceProblem.init pid content tr = .ok p →
      p.get_original_content = content) ∧
    (∀ env pid content tr p, CodeProblem.init env pid content tr = .ok p →
      p.get_original_content = content) ∧
    (∀ env pid content tr p, CodeSingleLineProblem.init env pid content tr = .ok p →
      p.get_original_content = content) ∧
    (∀ env pid content tr p, CodeFileProblem.init env pid content tr = .ok p →
      p.get_original_content = content) := by
  refine ⟨?_, ?_, ?_, ?_, ?_⟩
  · intro pid content tr p h
    simp only [MatchProblem.init] at h
    split at h
    · exact Except.noConfusion h
    · split at h
      · exact Except.noConfusion h
      · obtain rfl := Except.ok.inj h
        rfl
  · intro pid content tr p h
    simp only [MultipleChoiceProblem.init] at h
    split at h
    · exact Except.noConfusion h
    · split at h
      · exact Except.noConfusion h
      · split at h
        · obtain ⟨⟨good, bad⟩, hgb, h⟩ := except_bind_ok h
          split at h
          · exact Except.noConfusion h
          · obtain ⟨l, hl, h⟩ := except_bind_ok h
            obtain rfl := Except.ok.inj h
            rfl
        · exact Except.noConfusion h
  · intro env pid content tr p h
    simp only [CodeProblem.init] at h
    split at h
    · exact Except.noConfusion h
    · split at h
      · exact Except.noConfusion h
      · obtain ⟨boxes, hb, h⟩ := except_bind_ok h
        obtain rfl := Except.ok.inj h
        rfl
  · intro env pid content tr p h
    simp only [CodeSingleLineProblem.init] at h
    split at h
    · exact Except.noConfusion h
    · split at h
      · exact Except.noConfusion h
      · obtain ⟨b, hb, h⟩ := except_bind_ok h
        obtain rfl := Except.ok.inj h
        rfl
  · intro env pid content tr p h
    simp only [CodeFileProblem.init] at h
    split at h
    · exact Except.noConfusion h
    · split at h
      · exact Except.noConfusion h
      · obtain ⟨b, hb, h⟩ := except_bind_ok h
        obtain rfl := Except.ok.inj h
        rfl

/-- Witness for C8: one concrete successful construction per variant. -/
theorem C8_get_original_content_roundtrip_witness :
    (MatchProblem.get_original_content
        { id := "m", name := .str "", header := .str "",
          originalContent := [("answer", .str "x")], translations := [], answer := "x" }
      = [("answer", .str "x")]) ∧
    (MultipleChoiceProblem.get_original_content
        { id := "q", name := .str "", header := .str "",
          originalContent := [("choices", .list [.dict [("text", .str "a"), ("valid", .bool true)]])],
          translations := [], multiple := false, limit := 0, centralize := false,
          error_message := .none, success_message := .none,
          choices := [{ index := 0, text := .str "a", feedback := .none, valid := true }] }
      = [("choices", .list [.dict [("text", .str "a"), ("valid", .bool true)]])]) ∧
    (CodeProblem.get_original_content
        { id := "c", name := .str "", header := .str "", originalContent := [],
          translations := [],
          boxes := [{ kind := .multilineBox, boxid := "",
                      content := .dict [("type", .str "multiline"), ("optional", .bool false)] }] }
      = []) ∧
    (CodeSingleLineProblem.get_original_content
        { id := "c", name := .str "", header := .str "", originalContent := [],
          translations := [],
          boxes := [{ kind := .inputBox, boxid := "",
                      content := .dict [("type", .str "input-text"), ("optional", .bool false)] }] }
      = []) ∧
    (CodeFileProblem.get_original_content
        { id := "c", name := .str "", header := .str "", originalContent := [],
          translations := [],
          boxes := [{ kind := .fileBox, boxid := "",
                      content := .dict [("type", .str "file"), ("max_size", PyVal.none),
                        ("allowed_exts", PyVal.none)] }] }
      = []) :=
  ⟨C8_get_original_content_roundtrip.1 "m" [("answer", .str "x")] [] _ rfl,
   C8_get_original_content_roundtrip.2.1 "q"
     [("choices", .list [.dict [("text", .str "a"), ("valid", .bool true)]])] [] _ rfl,
   C8_get_original_content_roundtrip.2.2.1 (some "e") "c" [] [] _ rfl,
   C8_get_original_content_roundtrip.2.2.2.1 (some "e") "c" [] [] _ rfl,
   C8_get_original_content_roundtrip.2.2.2.2 (some "e") "c" [] [] _ rfl⟩

/-! ## Analysis of `MultipleChoiceProblem.__init__` -/

/-- Claim-side description: the truthiness of a choice descriptor's `valid`
flag (`False` for non-dict descriptors, which cannot construct anyway). -/
def choiceValidFlag (v : PyVal) : Bool :=
  match v with
  | .dict d => pyTruthy ((pyLookup "valid" d).getD (.bool false))
  | _ => false

/-- Claim-side description: the `Choice` record the enumeration loop builds
from the `index`-th choice descriptor, when that descriptor is a dict carrying
a `text` key. -/
def declaredChoice (index : Nat) (v : PyVal) : Option Choice :=
  match v with
  | .dict d =>
    (pyLookup "text" d).map (fun t =>
      { index, text := t, feedback := (pyLookup "feedback" d).getD .none,
        valid := pyTruthy ((pyLookup "valid" d).getD (.bool false)) })
  | _ => Option.none

/-- Claim-side description: all choice records in declaration order, indexed
from `index`. -/
def declaredChoices : List PyVal → Nat → Option (List Choice)
  | [], _ => some []
  | v :: rest, index => do
    let c ← declaredChoice index v
    let l ← declaredChoices rest (index + 1)
    pure (c :: l)

theorem declaredChoice_index {n : Nat} {v : PyVal} {c : Choice}
    (h : declaredChoice n v = some c) : c.index = n := by
  rcases v with _ | _ | _ | _ | _ | d
  all_goals simp only [declaredChoice] at h
  all_goals try exact Option.noConfusion h
  rcases hl : pyLookup "text" d with _ | t
  · rw [hl] at h
    exact Option.noConfusion h
  · rw [hl] at h
    obtain rfl := Option.some.inj h
    rfl

theorem declaredChoice_valid {n : Nat} {v : PyVal} {c : Choice}
    (h : declaredChoice n v = some c) : c.valid = choiceValidFlag v := by
  rcases v with _ | _ | _ | _ | _ | d
  all_goals simp only [declaredChoice] at h
  all_goals try exact Option.noConfusion h
  rw [choiceValidFlag]
  rcases hl : pyLookup "text" d with _ | t
  · rw [hl] at h
    exact Option.noConfusion h
  · rw [hl] at h
    obtain rfl := Option.some.inj h
    rfl

/-- The enumeration loop computes exactly the valid/invalid partition of the
declared choice records. -/
theorem parseChoices_eq_filter (pid : String) : ∀ (cs : List PyVal) (idx : Nat)
    {good bad : List Choice},
    parseChoices pid cs idx = .ok (good, bad) →
    ∃ all, declaredChoices cs idx = some all ∧
      good = all.filter (fun c => c.valid) ∧
      bad = all.filter (fun c => !c.valid) := by
  intro cs
  induction cs with
  | nil =>
    intro idx good bad h
    obtain ⟨rfl, rfl⟩ := Prod.mk.injEq .. ▸ Prod.mk.inj (Except.ok.inj h)
    exact ⟨[], rfl, rfl, rfl⟩
  | cons choice rest ih =>
    intro idx good bad h
    rw [parseChoices] at h
    obtain ⟨ht, hht, h⟩ := except_bind_ok h
    split at h
    · exact Except.noConfusion h
    · obtain ⟨t, hsub, h⟩ := except_bind_ok h
      obtain ⟨fb, hfb, h⟩ := except_bind_ok h
      obtain ⟨vv, hvv, h⟩ := except_bind_ok h
      obtain ⟨⟨g, b⟩, hrest, h⟩ := except_bind_ok h
      obtain ⟨d, rfl, htext⟩ : ∃ d, choice = .dict d ∧ pyLookup "text" d = some t := by
        rcases choice with _ | _ | _ | _ | _ | d
        all_goals first
          | exact Except.noConfusion hsub
          | {rw [pySubscript] at hsub
             rcases hl : pyLookup "text" d with _ | x
             · rw [hl] at hsub
               exact Except.noConfusion hsub
             · rw [hl] at hsub
               exact ⟨d, rfl, by rw [hl, Except.ok.inj hsub]⟩}
      rw [pyGet] at hfb hvv
      obtain rfl := Except.ok.inj hfb
      obtain rfl := Except.ok.inj hvv
      obtain ⟨all, hall, rfl, rfl⟩ := ih (idx + 1) hrest
      refine ⟨{ index := idx, text := t,
                feedback := (pyLookup "feedback" d).getD .none,
                valid := pyTruthy ((pyLookup "valid" d).getD (.bool false)) } :: all, ?_, ?_⟩
      · simp [declaredChoices, declaredChoice, htext, hall]
      · dsimp only at h
        by_cases hv : pyTruthy ((pyLookup "valid" d).getD (.bool false)) = true
        · rw [if_pos (by simpa using hv)] at h
          obtain ⟨rfl, rfl⟩ := Prod.mk.injEq .. ▸ Prod.mk.inj (Except.ok.inj h)
          constructor
          · rw [List.filter_cons_of_pos (by simpa using hv)]
          · rw [List.filter_cons_of_neg (by simpa using hv)]
        · rw [if_neg (by simpa using hv)] at h
          obtain ⟨rfl, rfl⟩ := Prod.mk.injEq .. ▸ Prod.mk.inj (Except.ok.inj h)
          constructor
          · rw [List.filter_cons_of_neg (by simpa using hv)]
          · rw [List.filter_cons_of_pos (by simpa [hv] using hv)]

/-- Index correspondence of the declared choice records: the record at
position `i` is built from the descriptor at position `i` with index
`idx + i`. -/
theorem declaredChoices_get : ∀ (cs : List PyVal) (idx : Nat) {all : List Choice},
    declaredChoices cs idx = some all →
    all.length = cs.length ∧
    ∀ i (h1 : i < cs.length) (h2 : i < all.length),
      declaredChoice (idx + i) (cs.get ⟨i, h1⟩) = some (all.get ⟨i, h2⟩) := by
  intro cs
  induction cs with
  | nil =>
    intro idx all h
    obtain rfl := Option.some.inj h
    exact ⟨rfl, fun i h1 _ => absurd h1 (Nat.not_lt_zero i)⟩
  | cons v rest ih =>
    intro idx all h
    rw [declaredChoices] at h
    rcases hc : declaredChoice idx v with _ | c
    · rw [hc] at h
      exact Option.noConfusion h
    · rw [hc] at h
      rcases hl : declaredChoices rest (idx + 1) with _ | l
      · rw [hl] at h
        exact Option.noConfusion h
      · rw [hl] at h
        obtain rfl := Option.some.inj h
        obtain ⟨hlen, hget⟩ := ih (idx + 1) hl
        refine ⟨by simpa using hlen, ?_⟩
        intro i h1 h2
        cases i with
        | zero => simpa using hc
        | succ j =>
          have := hget j (by simpa using h1) (by simpa using hlen ▸ (by simpa using h1))
          simpa [Nat.add_comm, Nat.add_assoc, Nat.add_left_comm] using this

/-- All records of the good partition are valid and all of the bad one are
invalid. -/
theorem parseChoices_valid_flags (pid : String) : ∀ (cs : List PyVal) (idx : Nat)
    {good bad : List Choice},
    parseChoices pid cs idx = .ok (good, bad) →
    (∀ c ∈ good, c.valid = true) ∧ (∀ c ∈ bad, c.valid = false) := by
  intro cs idx good bad h
  obtain ⟨all, _, rfl, rfl⟩ := parseChoices_eq_filter pid cs idx h
  constructor
  · intro c hc
    exact (List.mem_filter.mp hc).2
  · intro c hc
    simpa using (List.mem_filter.mp hc).2

/-- If no declared choice has a truthy `valid` flag, the good partition is
empty. -/
theorem parseChoices_no_valid (pid : String) : ∀ (cs : List PyVal) (idx : Nat)
    {good bad : List Choice},
    parseChoices pid cs idx = .ok (good, bad) →
    (∀ v ∈ cs, choiceValidFlag v = false) →
    good = [] := by
  intro cs idx good bad h hflags
  obtain ⟨all, hall, rfl, rfl⟩ := parseChoices_eq_filter pid cs idx h
  rw [List.filter_eq_nil]
  intro c hc
  obtain ⟨hlen, hget⟩ := declaredChoices_get cs idx hall
  obtain ⟨i, h2, rfl⟩ := List.mem_iff_get.mp hc
  have h1 : (i : Nat) < cs.length := hlen ▸ i.isLt
  have := declaredChoice_valid (hget i h1 i.isLt)
  simp only [this, hflags _ (List.get_mem cs _ _)]
  exact Bool.false_ne_true

/-- What a successful `MultipleChoiceProblem.init` run necessarily did: the id
passed `id_checker`, `choices` was a list that parsed into partitions `good`
(nonempty) and `bad`, the limit block succeeded, and the resulting record is
fully determined by the descriptor. -/
theorem mcInit_ok_elim {pid : String} {content : PyDict} {tr : Translations}
    {p : MultipleChoiceProblem}
    (h : MultipleChoiceProblem.init pid content tr = .ok p) :
    id_checker pid = true ∧
    ∃ cs good bad l,
      pyLookup "choices" content = some (.list cs) ∧
      parseChoices pid cs 0 = .ok (good, bad) ∧
      good ≠ [] ∧
      parseLimit pid content
        (pyTruthy ((pyLookup "multiple" content).getD (.bool false))) good.length = .ok l ∧
      p = { id := pid,
            name := (pyLookup "name" content).getD (.str ""),
            header := (pyLookup "header" content).getD (.str ""),
            originalContent := content, translations := tr,
            multiple := pyTruthy ((pyLookup "multiple" content).getD (.bool false)),
            limit := l,
            centralize := pyTruthy ((pyLookup "centralize" content).getD (.bool false)),
            error_message := (pyLookup "error_message" content).getD .none,
            success_message := (pyLookup "success_message" content).getD .none,
            choices := good ++ bad } := by
  rw [MultipleChoiceProblem.init] at h
  cases hid : id_checker pid with
  | false => simp [hid] at h
  | true =>
    rw [hid] at h
    simp only [Bool.not_true, Bool.false_eq_true, if_false] at h
    refine ⟨rfl, ?_⟩
    rcases hcs : pyLookup "choices" content with _ | cv
    · rw [hcs] at h
      exact Except.noConfusion h
    · rw [hcs] at h
      rcases cv with _ | _ | _ | _ | cs | _
      all_goals try exact Except.noConfusion h
      obtain ⟨⟨good, bad⟩, hpc, h⟩ := except_bind_ok h
      dsimp only at h
      cases hge : good.isEmpty with
      | true => rw [hge] at h; exact Except.noConfusion h
      | false =>
        rw [hge] at h
        simp only [Bool.false_eq_true, if_false] at h
        obtain ⟨l, hl, h⟩ := except_bind_ok h
        obtain rfl := Except.ok.inj h
        exact ⟨cs, good, bad, l, rfl, hpc, by simpa using hge, hl, rfl⟩

/-- Converse: the data of a successful run determines the constructed record. -/
theorem mcInit_ok_intro {pid : String} {content : PyDict} {tr : Translations}
    {cs : List PyVal} {good bad : List Choice} {l : Int}
    (hid : id_checker pid = true)
    (hcs : pyLookup "choices" content = some (.list cs))
    (hpc : parseChoices pid cs 0 = .ok (good, bad))
    (hg : good ≠ [])
    (hl : parseLimit pid content
      (pyTruthy ((pyLookup "multiple" content).getD (.bool false))) good.length = .ok l) :
    MultipleChoiceProblem.init pid content tr =
      .ok { id := pid,
            name := (pyLookup "name" content).getD (.str ""),
            header := (pyLookup "header" content).getD (.str ""),
            originalContent := content, translations := tr,
            multiple := pyTruthy ((pyLookup "multiple" content).getD (.bool false)),
            limit := l,
            centralize := pyTruthy ((pyLookup "centralize" content).getD (.bool false)),
            error_message := (pyLookup "error_message" content).getD .none,
            success_message := (pyLookup "success_message" content).getD .none,
            choices := good ++ bad } := by
  rw [MultipleChoiceProblem.init, hid, hcs]
  simp only [Bool.not_true, Bool.false_eq_true, if_false]
  rw [except_bind_ok_of hpc]
  dsimp only
  cases good with
  | nil => exact absurd rfl hg
  | cons c g =>
    simp only [List.isEmpty_cons, Bool.false_eq_true, if_false]
    rw [except_bind_ok_of hl]

/-- **C5.** A multiple-choice descriptor in which no choice carries a truthy
validity flag (in particular an empty choice list) never constructs; and a
successful construction always stores at least one valid choice (so a
`MultipleChoiceProblem` with zero valid choices is never produced). -/
theorem C5_no_valid_choice :
    (∀ (pid : String) (content : PyDict) (tr : Translations) (cs : List PyVal),
      pyLookup "choices" content = some (.list cs) →
      (∀ v ∈ cs, choiceValidFlag v = false) →
      ∀ p, MultipleChoiceProblem.init pid content tr ≠ .ok p) ∧
    (∀ (pid : String) (content : PyDict) (tr : Translations) (p : MultipleChoiceProblem),
      MultipleChoiceProblem.init pid content tr = .ok p →
      ∃ c ∈ p.choices, c.valid = true) := by
  constructor
  · intro pid content tr cs hcs hflags p h
    obtain ⟨hid, cs2, good, bad, l, hcs2, hpc, hg, hl, rfl⟩ := mcInit_ok_elim h
    obtain rfl : cs = cs2 := by
      have := hcs.symm.trans hcs2
      exact PyVal.list.inj (Option.some.inj this)
    exact hg (parseChoices_no_valid pid cs 0 hpc hflags)
  · intro pid content tr p h
    obtain ⟨hid, cs, good, bad, l, hcs, hpc, hg, hl, rfl⟩ := mcInit_ok_elim h
    obtain ⟨hgood, hbad⟩ := parseChoices_valid_flags pid cs 0 hpc
    cases good with
    | nil => exact absurd rfl hg
    | cons c g =>
      exact ⟨c, List.mem_append_left _ (List.mem_cons_self _ _),
        hgood c (List.mem_cons_self _ _)⟩

/-- Witness for C5: a descriptor whose two choices are both invalid (left:
construction fails, shown against the record a successful run would return),
and a one-valid-choice descriptor whose constructed problem stores a valid
choice (right). -/
theorem C5_no_valid_choice_witness :
    (MultipleChoiceProblem.init "q"
        [("choices", .list [.dict [("text", .str "a")],
                            .dict [("text", .str "b"), ("valid", .bool false)]])] []
      ≠ .ok { id := "q", name := .str "", header := .str "",
              originalContent := [("choices", .list [.dict [("text", .str "a")],
                                  .dict [("text", .str "b"), ("valid", .bool false)]])],
              translations := [], multiple := false, limit := 0, centralize := false,
              error_message := .none, success_message := .none,
              choices := [{ index := 0, text := .str "a", feedback := .none, valid := false },
                          { index := 1, text := .str "b", feedback := .none, valid := false }] }) ∧
    (∃ c ∈ (MultipleChoiceProblem.mk "q" (.str "") (.str "")
        [("choices", .list [.dict [("text", .str "a"), ("valid", .bool true)]])] []
        false 0 false .none .none
        [{ index := 0, text := .str "a", feedback := .none, valid := true }]).choices,
      c.valid = true) :=
  ⟨C5_no_valid_choice.1 "q"
      [("choices", .list [.dict [("text", .str "a")],
                          .dict [("text", .str "b"), ("valid", .bool false)]])] []
      [.dict [("text", .str "a")], .dict [("text", .str "b"), ("valid", .bool false)]]
      rfl (by decide) _,
   C5_no_valid_choice.2 "q"
      [("choices", .list [.dict [("text", .str "a"), ("valid", .bool true)]])] [] _ rfl⟩

/-- **C4.** For a descriptor that declares a `limit` key (and is otherwise
well-formed: valid id, parseable choices, at least one valid choice),
construction succeeds iff the limit value is an integer (Python counts bools
as ints), is nonnegative, and — when the problem is multi-select — is zero or
at least the number of valid choices. -/
theorem C4_limit_validation (pid : String) (content : PyDict) (tr : Translations)
    (cs : List PyVal) (good bad : List Choice) (lv : PyVal)
    (hid : id_checker pid = true)
    (hcs : pyLookup "choices" content = some (.list cs))
    (hpc : parseChoices pid cs 0 = .ok (good, bad))
    (hg : good ≠ [])
    (hlv : pyLookup "limit" content = some lv) :
    (∃ p, MultipleChoiceProblem.init pid content tr = .ok p) ↔
      (∃ l, pyIntVal lv = some l ∧ 0 ≤ l ∧
        (pyTruthy ((pyLookup "multiple" content).getD (.bool false)) = false ∨
          (good.length : Int) ≤ l ∨ l = 0)) := by
  constructor
  · rintro ⟨p, hp⟩
    obtain ⟨_, cs2, good2, bad2, l, hcs2, hpc2, hg2, hl, rfl⟩ := mcInit_ok_elim hp
    obtain rfl : cs = cs2 := PyVal.list.inj (Option.some.inj (hcs.symm.trans hcs2))
    obtain ⟨rfl, rfl⟩ : good = good2 ∧ bad = bad2 := by
      have := Except.ok.inj (hpc.symm.trans hpc2)
      exact ⟨congrArg Prod.fst this, congrArg Prod.snd this⟩
    rw [parseLimit.eq_def, hlv] at hl
    rcases hiv : pyIntVal lv with _ | l2
    · simp only [hiv] at hl
      exact Except.noConfusion hl
    · simp only [hiv] at hl
      split at hl
      · next hcond =>
        obtain rfl := Except.ok.inj hl
        refine ⟨l2, rfl, ?_, ?_⟩
        · have := (Bool.and_eq_true ..).mp hcond |>.1
          exact of_decide_eq_true this
        · have := (Bool.and_eq_true ..).mp hcond |>.2
          rcases Bool.or_eq_true .. |>.mp this with hrest | heq
          · rcases Bool.or_eq_true .. |>.mp hrest with hmul | hge
            · exact Or.inl (by simpa using hmul)
            · exact Or.inr (Or.inl (of_decide_eq_true hge))
          · exact Or.inr (Or.inr (by simpa using heq))
      · exact Except.noConfusion hl
  · rintro ⟨l, hiv, hnn, hdisj⟩
    have hl : parseLimit pid content
        (pyTruthy ((pyLookup "multiple" content).getD (.bool false))) good.length = .ok l := by
      rw [parseLimit.eq_def, hlv]
      simp only [hiv]
      split
      · rfl
      · next hcond =>
        exfalso
        apply hcond
        rw [Bool.and_eq_true]
        refine ⟨decide_eq_true hnn, ?_⟩
        rw [Bool.or_eq_true, Bool.or_eq_true]
        rcases hdisj with hmul | hge | heq
        · exact Or.inl (Or.inl (by simp [hmul]))
        · exact Or.inl (Or.inr (decide_eq_true hge))
        · exact Or.inr (by simp [heq])
    exact ⟨_, mcInit_ok_intro hid hcs hpc hg hl⟩

/-- Witness for C4: with choices {0 valid, 1 valid, 2 invalid}, limit 1 fails
for a multi-select problem but the same limit succeeds for single-select. -/
theorem C4_limit_validation_witness :
    (MultipleChoiceProblem.init "q"
        [("multiple", .bool true), ("limit", .int 1),
         ("choices", .list [.dict [("text", .str "a"), ("valid", .bool true)],
                            .dict [("text", .str "b"), ("valid", .bool true)],
                            .dict [("text", .str "c")]])] []
      = .error (.exception "Invalid limit in problem q")) ∧
    (∃ p, MultipleChoiceProblem.init "q"
        [("limit", .int 1),
         ("choices", .list [.dict [("text", .str "a"), ("valid", .bool true)],
                            .dict [("text", .str "b"), ("valid", .bool true)],
                            .dict [("text", .str "c")]])] []
      = .ok p) := by
  constructor
  · rfl
  · exact (C4_limit_validation "q"
      [("limit", .int 1),
       ("choices", .list [.dict [("text", .str "a"), ("valid", .bool true)],
                          .dict [("text", .str "b"), ("valid", .bool true)],
                          .dict [("text", .str "c")]])] []
      [.dict [("text", .str "a"), ("valid", .bool true)],
       .dict [("text", .str "b"), ("valid", .bool true)],
       .dict [("text", .str "c")]]
      [{ index := 0, text := .str "a", feedback := .none, valid := true },
       { index := 1, text := .str "b", feedback := .none, valid := true }]
      [{ index := 2, text := .str "c", feedback := .none, valid := false }]
      (.int 1) rfl rfl rfl (by decide) rfl).mpr
      ⟨1, rfl, by decide, Or.inl rfl⟩

/-- **C6.** For every successfully constructed `MultipleChoiceProblem`, the
stored choice list is the valid choices followed by the invalid ones (each
partition in declaration order, so the whole list is a permutation of the
declared choices), and each stored choice carries the index of its position in
the original declaration order together with the declared text, feedback and
validity flag (`declaredChoice i` describes exactly the record built from the
`i`-th descriptor). Nothing mutates a constructed problem in this pure model,
so these facts are invariants of the problem's lifetime. -/
theorem C6_choice_partition (pid : String) (content : PyDict) (tr : Translations)
    (p : MultipleChoiceProblem) (cs : List PyVal)
    (hinit : MultipleChoiceProblem.init pid content tr = .ok p)
    (hcs : pyLookup "choices" content = some (.list cs)) :
    ∃ all : List Choice,
      declaredChoices cs 0 = some all ∧
      all.length = cs.length ∧
      (∀ i (h1 : i < cs.length) (h2 : i < all.length),
        declaredChoice i (cs.get ⟨i, h1⟩) = some (all.get ⟨i, h2⟩)) ∧
      (∀ i (h2 : i < all.length), (all.get ⟨i, h2⟩).index = i) ∧
      p.choices = all.filter (fun c => c.valid) ++ all.filter (fun c => !c.valid) ∧
      p.choices.Perm all := by
  obtain ⟨hid, cs2, good, bad, l, hcs2, hpc, hg, hl, rfl⟩ := mcInit_ok_elim hinit
  obtain rfl : cs = cs2 := PyVal.list.inj (Option.some.inj (hcs.symm.trans hcs2))
  obtain ⟨all, hall, rfl, rfl⟩ := parseChoices_eq_filter pid cs 0 hpc
  obtain ⟨hlen, hget⟩ := declaredChoices_get cs 0 hall
  refine ⟨all, hall, hlen, ?_, ?_, rfl, ?_⟩
  · intro i h1 h2
    simpa using hget i h1 h2
  · intro i h2
    have h1 : i < cs.length := hlen ▸ h2
    exact declaredChoice_index (by simpa using hget i h1 h2)
  · simpa using List.filter_append_perm (fun c => c.valid) all

/-- Witness for C6: three declared choices (invalid, valid, invalid-with-
feedback); the stored list is the valid one (index 1) followed by the two
invalid ones in declaration order. -/
theorem C6_choice_partition_witness :
    (declaredChoices
        [.dict [("text", .str "a")],
         .dict [("text", .str "b"), ("valid", .bool true)],
         .dict [("text", .str "c"), ("feedback", .str "f")]] 0
      = some [{ index := 0, text := .str "a", feedback := .none, valid := false },
              { index := 1, text := .str "b", feedback := .none, valid := true },
              { index := 2, text := .str "c", feedback := .str "f", valid := false }]) ∧
    ((MultipleChoiceProblem.mk "q" (.str "") (.str "")
        [("choices", .list [.dict [("text", .str "a")],
                            .dict [("text", .str "b"), ("valid", .bool true)],
                            .dict [("text", .str "c"), ("feedback", .str "f")]])] []
        false 0 false .none .none
        [{ index := 1, text := .str "b", feedback := .none, valid := true },
         { index := 0, text := .str "a", feedback := .none, valid := false },
         { index := 2, text := .str "c", feedback := .str "f", valid := false }]).choices
      = ([{ index := 0, text := .str "a", feedback := .none, valid := false },
          { index := 1, text := .str "b", feedback := .none, valid := true },
          { index := 2, text := .str "c", feedback := .str "f", valid := false }].filter
            (fun c => c.valid)) ++
        ([{ index := 0, text := .str "a", feedback := .none, valid := false },
          { index := 1, text := .str "b", feedback := .none, valid := true },
          { index := 2, text := .str "c", feedback := .str "f", valid := false }].filter
            (fun c => !c.valid))) := by
  obtain ⟨all, h1, _, _, _, h5, _⟩ := C6_choice_partition "q"
    [("choices", .list [.dict [("text", .str "a")],
                        .dict [("text", .str "b"), ("valid", .bool true)],
                        .dict [("text", .str "c"), ("feedback", .str "f")]])] [] _
    [.dict [("text", .str "a")],
     .dict [("text", .str "b"), ("valid", .bool true)],
     .dict [("text", .str "c"), ("feedback", .str "f")]]
    rfl rfl
  obtain rfl := Option.some.inj ((rfl : declaredChoices
      [.dict [("text", .str "a")],
       .dict [("text", .str "b"), ("valid", .bool true)],
       .dict [("text", .str "c"), ("feedback", .str "f")]] 0 = some
        [{ index := 0, text := .str "a", feedback := .none, valid := false },
         { index := 1, text := .str "b", feedback := .none, valid := true },
         { index := 2, text := .str "c", feedback := .str "f", valid := false }]).symm.trans h1)
  exact ⟨h1, h5⟩

/-! ## C9: the selection limit has no effect on consistency checking/grading -/

/-- Claim-side helper: set key `k` of a dict to `v` (replacing the existing
binding in place, else appending), so `pyDictSet d k v1` and `pyDictSet d k v2`
are two descriptors that differ only in the value under `k`. -/
def pyDictSet (d : PyDict) (k : String) (v : PyVal) : PyDict :=
  if d.any (fun kv => kv.1 == k) then
    d.map (fun kv => if kv.1 == k then (k, v) else kv)
  else d ++ [(k, v)]

theorem pyLookup_map_set {k2 k : String} (hne : k2 ≠ k) (v : PyVal) :
    ∀ d : PyDict,
      pyLookup k2 (d.map (fun kv => if kv.1 == k then (k, v) else kv)) = pyLookup k2 d := by
  intro d
  induction d with
  | nil => rfl
  | cons kv rest ih =>
    cases kv with
    | mk k1 w =>
      rw [List.map_cons]
      by_cases hk1 : (k1 == k) = true
      · rw [if_pos hk1]
        rw [pyLookup, pyLookup, if_neg (by simpa using fun h => hne h.symm), ih]
        rw [if_neg]
        simp only [beq_iff_eq] at hk1 ⊢
        rw [hk1]
        exact fun h => hne h.symm
      · rw [if_neg hk1]
        rw [pyLookup, pyLookup]
        by_cases hk2 : (k1 == k2) = true
        · rw [if_pos hk2, if_pos hk2]
        · rw [if_neg hk2, if_neg hk2, ih]

theorem pyLookup_append_single {k2 k : String} (hne : k2 ≠ k) (v : PyVal) :
    ∀ d : PyDict, pyLookup k2 (d ++ [(k, v)]) = pyLookup k2 d := by
  intro d
  induction d with
  | nil =>
    rw [List.nil_append, pyLookup, pyLookup, if_neg (by simpa using fun h => hne h.symm)]
    rfl
  | cons kv rest ih =>
    cases kv with
    | mk k1 w =>
      rw [List.cons_append, pyLookup, pyLookup]
      by_cases hk2 : (k1 == k2) = true
      · rw [if_pos hk2, if_pos hk2]
      · rw [if_neg hk2, if_neg hk2, ih]

/-- Looking up any key other than `k` is unaffected by `pyDictSet _ k _`. -/
theorem pyLookup_pyDictSet_ne {k2 k : String} (hne : k2 ≠ k) (v : PyVal) (d : PyDict) :
    pyLookup k2 (pyDictSet d k v) = pyLookup k2 d := by
  rw [pyDictSet]
  split
  · exact pyLookup_map_set hne v d
  · exact pyLookup_append_single hne v d

theorem get_choice_with_index_congr {p1 p2 : MultipleChoiceProblem}
    (h : p1.choices = p2.choices) :
    ∀ n, p1.get_choice_with_index n = p2.get_choice_with_index n := by
  intro n
  rw [MultipleChoiceProblem.get_choice_with_index, MultipleChoiceProblem.get_choice_with_index, h]

theorem mcConsistencyLoop_congr {p1 p2 : MultipleChoiceProblem}
    (h : p1.choices = p2.choices) :
    ∀ l, mcConsistencyLoop p1 l = mcConsistencyLoop p2 l := by
  intro l
  induction l with
  | nil => rfl
  | cons e rest ih =>
    simp only [mcConsistencyLoop, get_choice_with_index_congr h, ih]

theorem mcFeedbackLoop_congr {p1 p2 : MultipleChoiceProblem}
    (h : p1.choices = p2.choices) (htr : p1.translations = p2.translations)
    (language : Option String) :
    ∀ l, mcFeedbackLoop p1 language l = mcFeedbackLoop p2 language l := by
  intro l
  induction l with
  | nil => rfl
  | cons e rest ih =>
    simp only [mcFeedbackLoop, get_choice_with_index_congr h, htr, ih]

/-- `input_is_consistent` reads only the id, the multi-select flag and the
stored choices. -/
theorem mc_input_is_consistent_congr {p1 p2 : MultipleChoiceProblem}
    (hid : p1.id = p2.id) (hm : p1.multiple = p2.multiple) (hc : p1.choices = p2.choices)
    (task_input : PyDict) (ext size : PyVal) :
    p1.input_is_consistent task_input ext size = p2.input_is_consistent task_input ext size := by
  simp only [MultipleChoiceProblem.input_is_consistent, hid, hm,
    mcConsistencyLoop_congr hc, get_choice_with_index_congr hc]

/-- `check_answer` reads only the id, the multi-select flag, the stored
choices, the messages, the centralize flag and the translations. -/
theorem mc_check_answer_congr {p1 p2 : MultipleChoiceProblem}
    (hid : p1.id = p2.id) (hm : p1.multiple = p2.multiple) (hc : p1.choices = p2.choices)
    (hcen : p1.centralize = p2.centralize) (he : p1.error_message = p2.error_message)
    (hs : p1.success_message = p2.success_message) (htr : p1.translations = p2.translations)
    (task_input : PyDict) (language : Option String) :
    p1.check_answer task_input language = p2.check_answer task_input language := by
  simp only [MultipleChoiceProblem.check_answer, hid, hm, hc, hcen, he, hs, htr,
    mcFeedbackLoop_congr hc htr, get_choice_with_index_congr hc]

/-- **C9.** Two multiple-choice problems built from descriptors that differ
only in the declared `limit` value (both constructions succeeding) behave
identically under `input_is_consistent` and `check_answer` on every submitted
input: the selection limit is never read when checking or grading. -/
theorem C9_limit_has_no_effect (c : PyDict) (v1 v2 : PyVal) (pid : String)
    (tr : Translations) (p1 p2 : MultipleChoiceProblem)
    (h1 : MultipleChoiceProblem.init pid (pyDictSet c "limit" v1) tr = .ok p1)
    (h2 : MultipleChoiceProblem.init pid (pyDictSet c "limit" v2) tr = .ok p2)
    (task_input : PyDict) (ext size : PyVal) (language : Option String) :
    p1.input_is_consistent task_input ext size = p2.input_is_consistent task_input ext size ∧
    p1.check_answer task_input language = p2.check_answer task_input language := by
  obtain ⟨_, cs1, good1, bad1, l1, hcs1, hpc1, _, _, rfl⟩ := mcInit_ok_elim h1
  obtain ⟨_, cs2, good2, bad2, l2, hcs2, hpc2, _, _, rfl⟩ := mcInit_ok_elim h2
  have hl : ∀ k2, k2 ≠ "limit" →
      pyLookup k2 (pyDictSet c "limit" v1) = pyLookup k2 (pyDictSet c "limit" v2) :=
    fun k2 hk => (pyLookup_pyDictSet_ne hk v1 c).trans (pyLookup_pyDictSet_ne hk v2 c).symm
  obtain rfl : cs1 = cs2 :=
    PyVal.list.inj (Option.some.inj (hcs1.symm.trans ((hl "choices" (by decide)).trans hcs2)))
  obtain ⟨rfl, rfl⟩ : good1 = good2 ∧ bad1 = bad2 := by
    have := Except.ok.inj (hpc1.symm.trans hpc2)
    exact ⟨congrArg Prod.fst this, congrArg Prod.snd this⟩
  have hm : pyTruthy ((pyLookup "multiple" (pyDictSet c "limit" v1)).getD (.bool false))
      = pyTruthy ((pyLookup "multiple" (pyDictSet c "limit" v2)).getD (.bool false)) := by
    rw [hl "multiple" (by decide)]
  have hcen : pyTruthy ((pyLookup "centralize" (pyDictSet c "limit" v1)).getD (.bool false))
      = pyTruthy ((pyLookup "centralize" (pyDictSet c "limit" v2)).getD (.bool false)) := by
    rw [hl "centralize" (by decide)]
  have he : (pyLookup "error_message" (pyDictSet c "limit" v1)).getD .none
      = (pyLookup "error_message" (pyDictSet c "limit" v2)).getD .none := by
    rw [hl "error_message" (by decide)]
  have hs : (pyLookup "success_message" (pyDictSet c "limit" v1)).getD .none
      = (pyLookup "success_message" (pyDictSet c "limit" v2)).getD .none := by
    rw [hl "success_message" (by decide)]
  refine ⟨mc_input_is_consistent_congr ?_ ?_ ?_ task_input ext size,
          mc_check_answer_congr ?_ ?_ ?_ ?_ ?_ ?_ ?_ task_input language⟩
  · rfl
  · exact hm
  · rfl
  · rfl
  · exact hm
  · rfl
  · exact hcen
  · exact he
  · exact hs
  · rfl

/-- Witness for C9: limits 0 and 2 over {0 valid, 1 valid, 2 invalid}; the
submission `[0, 1, 2]` (more selected indices than the limit 2) is checked and
graded identically, and is in particular still accepted as consistent. -/
theorem C9_limit_has_no_effect_witness :
    ((MultipleChoiceProblem.mk "q" (.str "") (.str "")
        [("multiple", .bool true),
         ("choices", .list [.dict [("text", .str "a"), ("valid", .bool true)],
                            .dict [("text", .str "b"), ("valid", .bool true)],
                            .dict [("text", .str "c")]]),
         ("limit", .int 0)] []
        true 0 false .none .none
        [{ index := 0, text := .str "a", feedback := .none, valid := true },
         { index := 1, text := .str "b", feedback := .none, valid := true },
         { index := 2, text := .str "c", feedback := .none, valid := false }]).input_is_consistent
        [("q", .list [.int 0, .int 1, .int 2])] .none .none
      = (MultipleChoiceProblem.mk "q" (.str "") (.str "")
        [("multiple", .bool true),
         ("choices", .list [.dict [("text", .str "a"), ("valid", .bool true)],
                            .dict [("text", .str "b"), ("valid", .bool true)],
                            .dict [("text", .str "c")]]),
         ("limit", .int 2)] []
        true 2 false .none .none
        [{ index := 0, text := .str "a", feedback := .none, valid := true },
         { index := 1, text := .str "b", feedback := .none, valid := true },
         { index := 2, text := .str "c", feedback := .none, valid := false }]).input_is_consistent
        [("q", .list [.int 0, .int 1, .int 2])] .none .none) ∧
    ((MultipleChoiceProblem.mk "q" (.str "") (.str "")
        [("multiple", .bool true),
         ("choices", .list [.dict [("text", .str "a"), ("valid", .bool true)],
                            .dict [("text", .str "b"), ("valid", .bool true)],
                            .dict [("text", .str "c")]]),
         ("limit", .int 0)] []
        true 0 false .none .none
        [{ index := 0, text := .str "a", feedback := .none, valid := true },
         { index := 1, text := .str "b", feedback := .none, valid := true },
         { index := 2, text := .str "c", feedback := .none, valid := false }]).check_answer
        [("q", .list [.int 0, .int 1, .int 2])] Option.none
      = (MultipleChoiceProblem.mk "q" (.str "") (.str "")
        [("multiple", .bool true),
         ("choices", .list [.dict [("text", .str "a"), ("valid", .bool true)],
                            .dict [("text", .str "b"), ("valid", .bool true)],
                            .dict [("text", .str "c")]]),
         ("limit", .int 2)] []
        true 2 false .none .none
        [{ index := 0, text := .str "a", feedback := .none, valid := true },
         { index := 1, text := .str "b", feedback := .none, valid := true },
         { index := 2, text := .str "c", feedback := .none, valid := false }]).check_answer
        [("q", .list [.int 0, .int 1, .int 2])] Option.none) ∧
    ((MultipleChoiceProblem.mk "q" (.str "") (.str "")
        [("multiple", .bool true),
         ("choices", .list [.dict [("text", .str "a"), ("valid", .bool true)],
                            .dict [("text", .str "b"), ("valid", .bool true)],
                            .dict [("text", .str "c")]]),
         ("limit", .int 2)] []
        true 2 false .none .none
        [{ index := 0, text := .str "a", feedback := .none, valid := true },
         { index := 1, text := .str "b", feedback := .none, valid := true },
         { index := 2, text := .str "c", feedback := .none, valid := false }]).input_is_consistent
        [("q", .list [.int 0, .int 1, .int 2])] .none .none
      = .ok true) := by
  obtain ⟨h1, h2⟩ := C9_limit_has_no_effect
    [("multiple", .bool true),
     ("choices", .list [.dict [("text", .str "a"), ("valid", .bool true)],
                        .dict [("text", .str "b"), ("valid", .bool true)],
                        .dict [("text", .str "c")]])]
    (.int 0) (.int 2) "q" [] _ _ rfl rfl
    [("q", .list [.int 0, .int 1, .int 2])] .none .none Option.none
  exact ⟨h1, h2, rfl⟩

/-! ## C1: multi-select grading -/

/-- Claim-side: the submission list contains choice index `k`, submitted either
as a native integer or as its decimal string form (the two membership tests of
the grading loop). -/
def indexSelected (entries : List PyVal) (k : Nat) : Bool :=
  entries.any (fun e => pyEq e (.int (k : Int))) ||
  entries.any (fun e => pyEq e (.str (pyNatStr k)))

/-- Claim-side: a choice is mismatched when it is valid but absent from the
submission, or invalid but present. -/
def choiceMismatch (entries : List PyVal) (c : Choice) : Bool :=
  if c.valid then !indexSelected entries c.index else indexSelected entries c.index

theorem choiceMismatch_false_iff (entries : List PyVal) (c : Choice) :
    choiceMismatch entries c = false ↔
      (c.valid = true → indexSelected entries c.index = true) ∧
      (c.valid = false → indexSelected entries c.index = false) := by
  cases hv : c.valid <;> cases hsel : indexSelected entries c.index <;>
    simp [choiceMismatch, hv, hsel]

/-- The grading loop of the multi-select branch computes exactly the mismatch
count: `valid` stays iff no choice is mismatched, and each mismatched choice
adds one to `invalid_count`. -/
theorem mcChoiceLoop_list (entries : List PyVal) :
    ∀ (cs : List Choice) (v : Bool) (n : Nat),
      mcChoiceLoop (.list entries) cs v n =
        .ok (v && ((cs.filter (choiceMismatch entries)).length == 0),
             n + (cs.filter (choiceMismatch entries)).length) := by
  intro cs
  induction cs with
  | nil =>
    intro v n
    simp [mcChoiceLoop]
  | cons c rest ih =>
    intro v n
    cases hv : c.valid with
    | true =>
      cases h1 : entries.any (fun e => pyEq e (.int (c.index : Int))) with
      | true =>
        have hmm : choiceMismatch entries c = false := by
          simp [choiceMismatch, hv, indexSelected, h1]
        simp [mcChoiceLoop, pyIn, hv, h1, hmm, ih, List.filter_cons, Bind.bind, Except.bind]
      | false =>
        cases h2 : entries.any (fun e => pyEq e (.str (pyNatStr c.index))) with
        | true =>
          have hmm : choiceMismatch entries c = false := by
            simp [choiceMismatch, hv, indexSelected, h1, h2]
          simp [mcChoiceLoop, pyIn, hv, h1, h2, hmm, ih, List.filter_cons,
            Bind.bind, Except.bind]
        | false =>
          have hmm : choiceMismatch entries c = true := by
            simp [choiceMismatch, hv, indexSelected, h1, h2]
          simp [mcChoiceLoop, pyIn, hv, h1, h2, hmm, ih, List.filter_cons,
            Bind.bind, Except.bind, Nat.add_assoc, Nat.add_comm, Nat.add_left_comm]
    | false =>
      cases h1 : entries.any (fun e => pyEq e (.int (c.index : Int))) with
      | true =>
        have hmm : choiceMismatch entries c = true := by
          simp [choiceMismatch, hv, indexSelected, h1]
        simp [mcChoiceLoop, pyIn, hv, h1, hmm, ih, List.filter_cons,
          Bind.bind, Except.bind, Nat.add_assoc, Nat.add_comm, Nat.add_left_comm]
      | false =>
        cases h2 : entries.any (fun e => pyEq e (.str (pyNatStr c.index))) with
        | true =>
          have hmm : choiceMismatch entries c = true := by
            simp [choiceMismatch, hv, indexSelected, h1, h2]
          simp [mcChoiceLoop, pyIn, hv, h1, h2, hmm, ih, List.filter_cons,
            Bind.bind, Except.bind, Nat.add_assoc, Nat.add_comm, Nat.add_left_comm]
        | false =>
          have hmm : choiceMismatch entries c = false := by
            simp [choiceMismatch, hv, indexSelected, h1, h2]
          simp [mcChoiceLoop, pyIn, hv, h1, h2, hmm, ih, List.filter_cons,
            Bind.bind, Except.bind]

/-- When every submitted entry is a declared choice index (native or string
form), the feedback-collection loop cannot raise. -/
theorem mcFeedbackLoop_ok (p : MultipleChoiceProblem) (language : Option String) :
    ∀ entries : List PyVal,
      (∀ e ∈ entries, ∃ c ∈ p.choices,
        e = .int (c.index : Int) ∨ e = .str (pyNatStr c.index)) →
      ∃ msgs, mcFeedbackLoop p language entries = .ok msgs := by
  intro entries
  induction entries with
  | nil => exact fun _ => ⟨[], rfl⟩
  | cons e rest ih =>
    intro hwf
    obtain ⟨c, hc, he⟩ := hwf e (List.mem_cons_self _ _)
    obtain ⟨msgs, hmsgs⟩ := ih (fun x hx => hwf x (List.mem_cons_of_mem _ hx))
    have hint : pyToInt e = .ok (c.index : Int) := by
      rcases he with rfl | rfl
      · rfl
      · exact pyToInt_str_pyNatStr c.index
    obtain ⟨c2, hc2⟩ : ∃ c2, p.get_choice_with_index (c.index : Int) = some c2 := by
      rw [MultipleChoiceProblem.get_choice_with_index]
      cases hf : p.choices.find? (fun entry => ((entry.index : Int) == (c.index : Int))) with
      | none =>
        exact absurd (List.find?_eq_none.mp hf c hc) (by simp)
      | some c2 => exact ⟨c2, rfl⟩
    rw [mcFeedbackLoop, except_bind_ok_of hint, hc2]
    try dsimp only
    rw [except_bind_ok_of hmsgs]
    rcases hfb : c2.feedback with _ | b | i | s | l | d
    all_goals exact ⟨_, rfl⟩

/-- Both branches of the final message-packaging `if` of `check_answer` return
the same correctness and count, so some feedback option always fits. -/
theorem exists_ok_ite_and {c : Prop} [Decidable c] {x y : Option (List PyVal)}
    {fst : Option Bool} {cnt : Nat} {Q : Prop} (hq : Q) :
    ∃ msgs, (if c then (.ok (fst, Option.none, x, cnt) : Except PyErr CheckAnswerResult)
             else .ok (fst, Option.none, y, cnt)) = .ok (fst, Option.none, msgs, cnt) ∧ Q := by
  split
  · exact ⟨x, rfl, hq⟩
  · exact ⟨y, rfl, hq⟩

/-- **C1.** Multi-select grading: when the submitted value under the problem's
id is a list of declared choice indices (each as a native int or its string
form), `check_answer` returns correctness `(mismatches == 0)` with invalid
count `mismatches`, where a valid choice missing from the list or an invalid
choice present in it each contributes one mismatch; correctness is `True` with
invalid count `0` iff every valid choice is selected and no invalid choice is. -/
theorem C1_multi_select_grading (p : MultipleChoiceProblem) (task_input : PyDict)
    (language : Option String) (entries : List PyVal)
    (hm : p.multiple = true)
    (hin : pyLookup p.id task_input = some (.list entries))
    (hwf : ∀ e ∈ entries, ∃ c ∈ p.choices,
      e = .int (c.index : Int) ∨ e = .str (pyNatStr c.index)) :
    ∃ msgs,
      p.check_answer task_input language =
        .ok (some ((p.choices.filter (choiceMismatch entries)).length == 0), Option.none,
             msgs, (p.choices.filter (choiceMismatch entries)).length) ∧
      (((p.choices.filter (choiceMismatch entries)).length == 0) = true ↔
        ∀ c ∈ p.choices,
          (c.valid = true → indexSelected entries c.index = true) ∧
          (c.valid = false → indexSelected entries c.index = false)) := by
  have hIff : ((p.choices.filter (choiceMismatch entries)).length == 0) = true ↔
      ∀ c ∈ p.choices,
        (c.valid = true → indexSelected entries c.index = true) ∧
        (c.valid = false → indexSelected entries c.index = false) := by
    rw [beq_iff_eq, List.length_eq_zero, List.filter_eq_nil]
    constructor
    · intro h c hc
      exact (choiceMismatch_false_iff entries c).mp (by simpa using h c hc)
    · intro h c hc
      simpa using (choiceMismatch_false_iff entries c).mpr (h c hc)
  have hget : dictGetItem task_input p.id = .ok (.list entries) := by
    rw [dictGetItem, hin]
  obtain ⟨msgs0, hfb⟩ := mcFeedbackLoop_ok p language entries hwf
  rw [MultipleChoiceProblem.check_answer, except_bind_ok_of hget, hm]
  simp only [if_true]
  rw [except_bind_ok_of (mcChoiceLoop_list entries p.choices true 0)]
  try dsimp only
  rw [except_bind_ok_of (show pyIter (.list entries) = .ok entries from rfl)]
  rw [except_bind_ok_of hfb]
  try dsimp only
  simp only [pure, Except.pure, Bind.bind, Except.bind, Bool.true_and, Nat.zero_add]
  cases hM : ((p.choices.filter (choiceMismatch entries)).length == 0) with
  | true =>
    have hM0 : (p.choices.filter (choiceMismatch entries)).length = 0 := by
      simpa using hM
    rw [hM] at hIff
    rw [hM0]
    simp only [Bool.not_true, Bool.false_eq_true, if_false]
    exact exists_ok_ite_and (by simpa using hIff)
  | false =>
    rw [hM] at hIff
    simp only [Bool.not_false, if_true]
    exact exists_ok_ite_and (by simpa using hIff)

/-- A concrete multi-select problem: choices {0 valid, 1 valid, 2 invalid},
limit 0 (as constructed by `MultipleChoiceProblem.init` from the spec's
example descriptor). -/
def mcExample : MultipleChoiceProblem :=
  { id := "q", name := .str "", header := .str "",
    originalContent := [("multiple", .bool true), ("limit", .int 0),
      ("choices", .list [.dict [("text", .str "a"), ("valid", .bool true)],
                         .dict [("text", .str "b"), ("valid", .bool true)],
                         .dict [("text", .str "c")]])],
    translations := [], multiple := true, limit := 0, centralize := false,
    error_message := .none, success_message := .none,
    choices := [{ index := 0, text := .str "a", feedback := .none, valid := true },
                { index := 1, text := .str "b", feedback := .none, valid := true },
                { index := 2, text := .str "c", feedback := .none, valid := false }] }

/-- Witness for C1: the spec's example, choices {0 valid, 1 valid, 2 invalid}
and limit 0: `[0, 1]` grades (True, 0), `[0]` grades (False, 1), `[0, 1, 2]`
grades (False, 1), and `["0", "1"]` (string-typed indices) grades (True, 0). -/
theorem C1_multi_select_grading_witness :
    (∃ msgs, mcExample.check_answer [("q", .list [.int 0, .int 1])] Option.none
      = .ok (some true, Option.none, msgs, 0)) ∧
    (∃ msgs, mcExample.check_answer [("q", .list [.int 0])] Option.none
      = .ok (some false, Option.none, msgs, 1)) ∧
    (∃ msgs, mcExample.check_answer [("q", .list [.int 0, .int 1, .int 2])] Option.none
      = .ok (some false, Option.none, msgs, 1)) ∧
    (∃ msgs, mcExample.check_answer [("q", .list [.str "0", .str "1"])] Option.none
      = .ok (some true, Option.none, msgs, 0)) := by
  refine ⟨?_, ?_, ?_, ?_⟩
  · obtain ⟨msgs, heq, _⟩ := C1_multi_select_grading mcExample
      [("q", .list [.int 0, .int 1])] Option.none [.int 0, .int 1] rfl rfl (by decide)
    exact ⟨msgs, heq⟩
  · obtain ⟨msgs, heq, _⟩ := C1_multi_select_grading mcExample
      [("q", .list [.int 0])] Option.none [.int 0] rfl rfl (by decide)
    exact ⟨msgs, heq⟩
  · obtain ⟨msgs, heq, _⟩ := C1_multi_select_grading mcExample
      [("q", .list [.int 0, .int 1, .int 2])] Option.none [.int 0, .int 1, .int 2]
      rfl rfl (by decide)
    exact ⟨msgs, heq⟩
  · obtain ⟨msgs, heq, _⟩ := C1_multi_select_grading mcExample
      [("q", .list [.str "0", .str "1"])] Option.none [.str "0", .str "1"]
      rfl rfl (by decide)
    exact ⟨msgs, heq⟩

/-! ## C7: box-construction failures -/

/-- A successful run of the explicit-`boxes` loop implies that no enumerated
box id was the empty string (the loop raises on the first one). -/
theorem codeBoxesLoop_ok_no_empty : ∀ (bs : List (String × PyVal)) (boxes : List Box),
    codeBoxesLoop bs = .ok boxes → ∀ kv ∈ bs, kv.1 ≠ "" := by
  intro bs
  induction bs with
  | nil =>
    intro boxes h kv hkv
    simp at hkv
  | cons kv2 rest ih =>
    intro boxes h kv hkv
    cases kv2 with
    | mk k v =>
      rw [codeBoxesLoop] at h
      by_cases hk : (k == "") = true
      · rw [if_pos hk] at h
        exact Except.noConfusion h
      · rw [if_neg hk] at h
        obtain ⟨b, hb, h⟩ := except_bind_ok h
        obtain ⟨bs2, hbs2, h⟩ := except_bind_ok h
        rcases List.mem_cons.mp hkv with rfl | hmem
        · simpa using hk
        · exact ih bs2 hbs2 kv hmem

/-- **C7.** (a) A `CodeProblem` whose explicit `boxes` dict contains the empty
string as a box id never constructs. (b) `_create_box` on a nonempty box id
outside the restricted identifier charset fails with the error naming the box
id. (c) `_create_box` on a descriptor whose `type` string is not a known box
type fails with an error naming the box id (either the invalid-id error or the
unknown-type error, both of which carry the offending id). -/
theorem C7_box_construction_failures :
    (∀ (env : Option String) (pid : String) (content : PyDict) (tr : Translations)
      (bs : List (String × PyVal)),
      pyLookup "boxes" content = some (.dict bs) →
      (∃ v, ("", v) ∈ bs) →
      ∀ p, CodeProblem.init env pid content tr ≠ .ok p) ∧
    (∀ (boxid : String) (box_content : PyVal),
      id_checker boxid = false → boxid ≠ "" →
      createBox boxid box_content = .error (.exception ("Invalid box _id " ++ boxid))) ∧
    (∀ (boxid : String) (d : List (String × PyVal)) (t : String),
      pyLookup "type" d = some (.str t) → boxTypeOf t = Option.none →
      (createBox boxid (.dict d) = .error (.exception ("Invalid box _id " ++ boxid)) ∨
       createBox boxid (.dict d) =
         .error (.exception ("Unknown box type " ++ t ++ "for box _id " ++ boxid)))) := by
  refine ⟨?_, ?_, ?_⟩
  · rintro env pid content tr bs hb ⟨v, hv⟩ p h
    simp only [CodeProblem.init] at h
    split at h
    · exact Except.noConfusion h
    · split at h
      · exact Except.noConfusion h
      · obtain ⟨boxes, hboxes, h⟩ := except_bind_ok h
        rw [hb] at hboxes
        exact codeBoxesLoop_ok_no_empty bs boxes hboxes ("", v) hv rfl
  · intro boxid box_content hidf hne
    rw [createBox, if_pos (by simp [hidf, hne])]
  · intro boxid d t hty hbt
    rw [createBox]
    split
    · exact Or.inl rfl
    · have hkey : pyHasKey (.dict d) "type" = .ok true := by
        show Except.ok (d.any (fun kv => kv.1 == "type")) = .ok true
        rw [(any_key_iff_lookup "type" d).mpr ⟨_, hty⟩]
      rw [except_bind_ok_of hkey]
      simp only [Bool.not_true, Bool.false_eq_true, if_false]
      have hsub : pySubscript (.dict d) "type" = .ok (.str t) := by
        show (match pyLookup "type" d with
          | some x => (Except.ok x : Except PyErr PyVal)
          | Option.none => .error .keyError) = _
        rw [hty]
      rw [except_bind_ok_of hsub]
      try dsimp only
      rw [hbt]
      exact Or.inr rfl

/-- Witness for C7: an explicit empty box id fails construction; the box id
`"b!x"` is outside the charset and fails with the error naming it; the unknown
type `"weird"` fails with the error naming box id `"bx"`. -/
theorem C7_box_construction_failures_witness :
    (CodeProblem.init (some "e") "c"
        [("boxes", .dict [("", .dict [("type", .str "multiline")])])] []
      ≠ .ok { id := "c", name := .str "", header := .str "",
              originalContent := [("boxes", .dict [("", .dict [("type", .str "multiline")])])],
              translations := [], boxes := [] }) ∧
    (createBox "b!x" (.dict [("type", .str "multiline")])
      = .error (.exception "Invalid box _id b!x")) ∧
    (createBox "bx" (.dict [("type", .str "weird")])
        = .error (.exception "Invalid box _id bx") ∨
     createBox "bx" (.dict [("type", .str "weird")])
        = .error (.exception "Unknown box type weirdfor box _id bx")) :=
  ⟨C7_box_construction_failures.1 (some "e") "c"
      [("boxes", .dict [("", .dict [("type", .str "multiline")])])] []
      [("", .dict [("type", .str "multiline")])] rfl
      ⟨.dict [("type", .str "multiline")], by decide⟩ _,
   C7_box_construction_failures.2.1 "b!x" (.dict [("type", .str "multiline")])
      (by decide) (by decide),
   C7_box_construction_failures.2.2 "bx" [("type", .str "weird")] "weird" rfl rfl⟩

end INGInious
